import Mathlib

/-!
Verification of the MySQL-to-OpenAPI generation engine.

The development shallowly embeds the schema-to-specification logic of
`mysql_to_openapi.py` (the "basic", all-in-one variant, namespace
`MysqlToOpenapi`) and `mysql_to_individual_openapi.py` (the "enhanced",
per-table variant, namespace `MysqlToIndividualOpenapi`).

Conventions of the embedding:
* Python strings are Lean `String`s; `x in s` is `pyIn x s` (substring test),
  `s.lower()` is `pyLower s`, `s.endswith(x)` is `pyEndsWith s x`,
  `s.capitalize()` is `pyCapitalize s`, `s[:-1]` is `pyDropLast s`.
* A `DESCRIBE` row `(Field, Type, Null, Key, Default, Extra)` is a `Column`;
  the `Default` entry (index 4) is read into a variable that is never used by
  either generator, so it is omitted from the record.
* Python `OrderedDict`s are insertion-ordered association lists.  Column names
  are unique in a `DESCRIBE` result, so assoc-list append models dict insert.
* The emitted YAML document tree is the inductive `PVal` (strings, ints,
  bools, homogeneous lists, nested arrays/dicts, plus `pyset` for the one
  Python `set` literal that appears in the source at
  mysql_to_individual_openapi.py line 153).
-/

/-- Python `str.lower()` (per-character lowercasing). -/
def pyLower (s : String) : String := ⟨s.data.map Char.toLower⟩

/-- Python `needle in hay` on strings: substring containment. -/
def pyIn (needle hay : String) : Bool := decide (needle.data <:+: hay.data)

/-- Python `s.endswith(x)`. -/
def pyEndsWith (s x : String) : Bool := decide (x.data <:+ s.data)

/-- Python `s.capitalize()`: first character upper-cased, the rest lower-cased. -/
def pyCapitalize (s : String) : String :=
  match s.data with
  | [] => s
  | c :: cs => ⟨Char.toUpper c :: cs.map Char.toLower⟩

/-- Python `s[:-1]`: drop the last character. -/
def pyDropLast (s : String) : String := ⟨s.data.dropLast⟩

/-- One column of a `DESCRIBE` result: `(Field, Type, Null, Key, Default, Extra)`
with the unused `Default` entry omitted. -/
structure Column where
  name : String
  ctype : String
  nullable : String
  key : String
  extra : String
deriving DecidableEq, Repr

/-- The (ordered) dictionary built for one field schema.  An `Option` field
set to `none` (or `readOnly = false`) models the key being absent from the
Python dict.  Key order inside one field object is normalized; no claim
depends on it.  `exmpl` models the `example` key (`example` is a Lean keyword). -/
structure FieldObj where
  type : String
  format : Option String := none
  readOnly : Bool := false
  description : Option String := none
  exmpl : Option String := none
  pattern : Option String := none
  minimum : Option Int := none
  maximum : Option Int := none
  minLength : Option Nat := none
  maxLength : Option Nat := none
deriving DecidableEq, Repr

namespace MysqlToOpenapi

/-- `mysql_to_openapi.py` lines 7-31: the basic type mapper.  The source
lower-cases its input once and re-lowers it in the `email`/`mail` test, which
is the identity on the already-lowered string. -/
def mysql_type_to_openapi_type (mysql_type : String) : FieldObj :=
  let t := pyLower mysql_type
  if pyIn "int" t then
    if pyIn "bigint" t then { type := "integer", format := some "int64" }
    else { type := "integer", format := some "int32" }
  else if pyIn "float" t || pyIn "double" t || pyIn "decimal" t then
    { type := "number", format := some "double" }
  else if pyIn "varchar" t || pyIn "text" t || pyIn "char" t then
    { type := "string" }
  else if pyIn "email" t || pyIn "mail" t then
    { type := "string", format := some "email" }
  else if pyIn "datetime" t || pyIn "timestamp" t then
    { type := "string", format := some "date-time" }
  else if pyIn "date" t then
    { type := "string", format := some "date" }
  else if pyIn "bool" t || pyIn "tinyint(1)" t then
    { type := "boolean" }
  else if pyIn "json" t then
    { type := "object" }
  else
    { type := "string" }

end MysqlToOpenapi

namespace MysqlToIndividualOpenapi

/-- `mysql_to_individual_openapi.py` lines 7-35: the enhanced type mapper
(boolean-sensitive: `tinyint(1)` maps to boolean). -/
def mysql_type_to_openapi_type (mysql_type : String) : FieldObj :=
  let t := pyLower mysql_type
  if pyIn "int" t then
    if pyIn "bigint" t then { type := "integer", format := some "int64" }
    else if pyIn "tinyint(1)" t then { type := "boolean" }
    else { type := "integer", format := some "int32" }
  else if pyIn "float" t || pyIn "double" t || pyIn "decimal" t then
    { type := "number", format := some "double" }
  else if pyIn "varchar" t || pyIn "text" t || pyIn "char" t then
    { type := "string" }
  else if pyIn "datetime" t || pyIn "timestamp" t then
    { type := "string", format := some "date-time" }
  else if pyIn "date" t then
    { type := "string", format := some "date" }
  else if pyIn "time" t then
    { type := "string", format := some "time" }
  else if pyIn "bool" t then
    { type := "boolean" }
  else if pyIn "json" t then
    { type := "object" }
  else if pyIn "enum" t then
    { type := "string" }
  else
    { type := "string" }

end MysqlToIndividualOpenapi

/-- Naming transform shared by both variants
(mysql_to_openapi.py line 208, mysql_to_individual_openapi.py line 385):
`table_name[:-1] if table_name.endswith('s') else table_name`. -/
def resource_singular (t : String) : String :=
  if pyEndsWith t "s" then pyDropLast t else t

/-- The `schema_name[:-1] if schema_name.endswith('s') else schema_name`
expression used when deriving `New.../Create.../Update...` schema names. -/
def stripTrailingS (s : String) : String :=
  if pyEndsWith s "s" then pyDropLast s else s

/-! ## The emitted document tree -/
mutual
/-- A node of the emitted YAML/OpenAPI document tree (Python dicts, lists and
scalars).  `pyset` models the Python `set` literal used by mistake as the
`assigned_to` parameter schema (mysql_to_individual_openapi.py line 153). -/
inductive PVal where
  | str (v : String)
  | intv (v : Int)
  | boolv (v : Bool)
  | listS (v : List String)
  | listI (v : List Int)
  | pyset (v : List String)
  | arr (vs : PList)
  | dict (kvs : PDict)
deriving DecidableEq
/-- A list of document nodes. -/
inductive PList where
  | nil
  | cons (v : PVal) (vs : PList)
deriving DecidableEq
/-- An insertion-ordered dictionary of document nodes. -/
inductive PDict where
  | nil
  | cons (k : String) (v : PVal) (kvs : PDict)
deriving DecidableEq
end

/-- Build a `PDict` from an association list. -/
def PDict.ofList : List (String × PVal) → PDict
  | [] => .nil
  | (k, v) :: rest => .cons k v (PDict.ofList rest)

/-- Build a `PList` from a list. -/
def PList.ofList : List PVal → PList
  | [] => .nil
  | v :: rest => .cons v (PList.ofList rest)

/-- Notation-free shorthand for a dict node. -/
def pd (l : List (String × PVal)) : PVal := PVal.dict (PDict.ofList l)

/-- Notation-free shorthand for an array node. -/
def pa (l : List PVal) : PVal := PVal.arr (PList.ofList l)

mutual
/-- All `$ref` target strings occurring anywhere in a document tree, in
document order: a reference is the string value of a dict entry whose key is
the literal `$ref`. -/
def collectRefs : PVal → List String
  | .str _ => []
  | .intv _ => []
  | .boolv _ => []
  | .listS _ => []
  | .listI _ => []
  | .pyset _ => []
  | .arr vs => collectRefsL vs
  | .dict kvs => collectRefsD kvs
/-- `collectRefs` over an array node. -/
def collectRefsL : PList → List String
  | .nil => []
  | .cons v vs => collectRefs v ++ collectRefsL vs
/-- `collectRefs` over a dict node. -/
def collectRefsD : PDict → List String
  | .nil => []
  | .cons k v kvs =>
      (if k = "$ref" then (match v with | .str s => [s] | _ => []) else [])
        ++ collectRefs v ++ collectRefsD kvs
end

/-- First-match lookup in a `PDict` (keys of the generated dicts are distinct,
so this agrees with Python dict lookup). -/
def PDict.find : PDict → String → Option PVal
  | .nil, _ => none
  | .cons k v rest, key => if k == key then some v else PDict.find rest key

/-- The keys of a `PDict`, in insertion order. -/
def PDict.keys : PDict → List String
  | .nil => []
  | .cons k _ rest => k :: rest.keys

/-- Dictionary lookup on a document node. -/
def PVal.get? (v : PVal) (k : String) : Option PVal :=
  match v with
  | .dict kvs => kvs.find k
  | _ => none

/-! ## Query Parameter Advisor (mysql_to_individual_openapi.py lines 49-290) -/
namespace MysqlToIndividualOpenapi

/-- Core business tables that need search functionality (lines 54-59). -/
def high_priority_tables : List String :=
  ["users", "tasks", "parenttasks", "taskassignments",
   "assignmentactions", "taskconflicts", "notifications",
   "taskrecurrencerule", "reminders", "emergencycontacts",
   "familyaccount", "caregivers", "seniors", "family"]

/-- Medium priority tables (lines 62-65). -/
def medium_priority_tables : List String :=
  ["categories", "priorities", "statuses", "roles",
   "settings", "preferences", "schedules"]

/-- System/lookup table name fragments to skip (lines 68-71). -/
def system_tables : List String :=
  ["categorypriority", "conflictactions", "conflictsuggestions",
   "log_", "audit_", "temp_", "backup_"]

/-- Lines 49-79: table classification.  The system deny-list is checked first;
otherwise any high- or medium-priority fragment match makes the table
searchable. -/
def should_generate_query_params_individual (table_name : String) : Bool :=
  let t := pyLower table_name
  if system_tables.any (fun s => pyIn s t) then false
  else
    high_priority_tables.any (fun s => pyIn s t)
      || medium_priority_tables.any (fun s => pyIn s t)

/-- One query parameter dict: keys `name, in, required, schema, description`
in that order. -/
structure QP where
  name : String
  inLoc : String
  required : Bool
  schema : PVal
  description : String
deriving DecidableEq

/-- Lines 96-106. -/
def roleIdParam : QP :=
  ⟨"role_id", "query", false,
   pd [("type", .str "integer"), ("enum", .listI [1, 2, 3]),
       ("description", .str "1=Senior, 2=Family, 3=Caregiver")],
   "Filter by user role"⟩

/-- Lines 107-113. -/
def activeParam : QP :=
  ⟨"active", "query", false, pd [("type", .str "boolean")], "Filter by active status"⟩

/-- Lines 117-123. -/
def nameSearchParam : QP :=
  ⟨"name_search", "query", false,
   pd [("type", .str "string"), ("minLength", .intv 2)],
   "Search by name (partial match, minimum 2 characters)"⟩

/-- Lines 127-137. -/
def statusIdParam : QP :=
  ⟨"status_id", "query", false,
   pd [("type", .str "integer"), ("enum", .listI [1, 2, 3, 4]),
       ("description", .str "1=Pending, 2=In Progress, 3=Completed, 4=Cancelled")],
   "Filter by task status"⟩

/-- Lines 138-148. -/
def priorityLevelParam : QP :=
  ⟨"priority_level", "query", false,
   pd [("type", .str "integer"), ("minimum", .intv 1), ("maximum", .intv 5)],
   "Filter by priority level (1=Low, 5=Critical)"⟩

/-- Lines 149-155: the schema is a Python `set` literal, not a dict. -/
def assignedToParam : QP :=
  ⟨"assigned_to", "query", false, PVal.pyset ["type", "integer"],
   "Filter by assigned user ID"⟩

/-- Lines 160-166. -/
def dueDateFromParam : QP :=
  ⟨"due_date_from", "query", false,
   pd [("type", .str "string"), ("format", .str "date")],
   "Filter tasks due from this date"⟩

/-- Lines 167-173. -/
def dueDateToParam : QP :=
  ⟨"due_date_to", "query", false,
   pd [("type", .str "string"), ("format", .str "date")],
   "Filter tasks due until this date"⟩

/-- Lines 178-184. -/
def relationshipParam : QP :=
  ⟨"relationship", "query", false, pd [("type", .str "string")],
   "Filter by relationship type"⟩

/-- Lines 185-191. -/
def isEmergencyParam : QP :=
  ⟨"is_emergency", "query", false, pd [("type", .str "boolean")],
   "Filter emergency contacts only"⟩

/-- Lines 196-202. -/
def isReadParam : QP :=
  ⟨"is_read", "query", false, pd [("type", .str "boolean")], "Filter by read status"⟩

/-- Lines 203-209. -/
def notificationTypeParam : QP :=
  ⟨"notification_type", "query", false, pd [("type", .str "string")],
   "Filter by notification type"⟩

/-- Lines 214-221. -/
def createdFromParam : QP :=
  ⟨"created_from", "query", false,
   pd [("type", .str "string"), ("format", .str "date-time")],
   "Filter records created from this date/time"⟩

/-- Lines 222-228. -/
def createdToParam : QP :=
  ⟨"created_to", "query", false,
   pd [("type", .str "string"), ("format", .str "date-time")],
   "Filter records created until this date/time"⟩

/-- Lines 234-240: global text search; the description samples up to three
text column names. -/
def searchParam (text_columns : List String) : QP :=
  ⟨"search", "query", false,
   pd [("type", .str "string"), ("minLength", .intv 3)],
   "Global search across text fields: " ++ String.intercalate ", " (text_columns.take 3)
     ++ (if text_columns.length > 3 then "..." else "")⟩

/-- Lines 244-254. -/
def pageParam : QP :=
  ⟨"page", "query", false,
   pd [("type", .str "integer"), ("minimum", .intv 1), ("default", .intv 1)],
   "Page number for pagination"⟩

/-- Lines 255-266. -/
def limitParam : QP :=
  ⟨"limit", "query", false,
   pd [("type", .str "integer"), ("minimum", .intv 1), ("maximum", .intv 100),
       ("default", .intv 20)],
   "Number of items per page"⟩

/-- Lines 267-276: sortable fields are the first 10 column names. -/
def sortByParam (columns : List Column) : QP :=
  ⟨"sort_by", "query", false,
   pd [("type", .str "string"), ("enum", .listS ((columns.take 10).map Column.name))],
   "Field to sort by"⟩

/-- Lines 277-287. -/
def sortOrderParam : QP :=
  ⟨"sort_order", "query", false,
   pd [("type", .str "string"), ("enum", .listS ["asc", "desc"]),
       ("default", .str "asc")],
   "Sort order (ascending or descending)"⟩

/-- Lines 81-290: `add_smart_query_params(columns, table_name)`.  Returns the
ordered query-parameter list: table-topic filters, then date-range filters,
then the generic text search, then always `page, limit, sort_by, sort_order`. -/
def add_smart_query_params (columns : List Column) (table_name : String) : List QP :=
  if !should_generate_query_params_individual table_name then []
  else
    let t := pyLower table_name
    let column_names := columns.map (fun c => pyLower c.name)
    let p1 : List QP :=
      if pyIn "users" t || pyIn "user" t then
        [roleIdParam, activeParam]
          ++ (if column_names.any (fun c => pyIn "name" c) then [nameSearchParam] else [])
      else if pyIn "task" t then
        [statusIdParam, priorityLevelParam, assignedToParam]
          ++ (if column_names.any (fun c => pyIn "due" c) then
                [dueDateFromParam, dueDateToParam] else [])
      else if pyIn "contact" t then [relationshipParam, isEmergencyParam]
      else if pyIn "notification" t then [isReadParam, notificationTypeParam]
      else []
    let p2 : List QP :=
      if column_names.any (fun c => pyIn "created_at" c) then
        [createdFromParam, createdToParam]
      else []
    let text_columns : List String :=
      (columns.filter
        (fun c => pyIn "varchar" (pyLower c.ctype) || pyIn "text" (pyLower c.ctype))).map
        Column.name
    let p3 : List QP :=
      if !text_columns.isEmpty && text_columns.length > 1 then [searchParam text_columns]
      else []
    p1 ++ p2 ++ p3 ++ [pageParam, limitParam, sortByParam columns, sortOrderParam]

end MysqlToIndividualOpenapi

/-! ## Read/write schema construction (the per-column loops) -/
/-- The mutable state of the per-column loop in both generators: the read
("main") schema's properties and required list, the write ("New"/"Create")
schema's properties and required list, the primary-key column seen so far,
and the auto-increment flag. -/
structure BuildState where
  tProps : List (String × FieldObj)
  tReq : List String
  nProps : List (String × FieldObj)
  nReq : List String
  pk : Option String
  hasAI : Bool
deriving DecidableEq

/-- Loop state before the first column. -/
def initState : BuildState := ⟨[], [], [], [], none, false⟩

namespace MysqlToIndividualOpenapi

/-- Lines 327-364: enhanced field decoration (first applicable branch wins).
The foreign-key branch compares the lower-cased column name against the
current `primary_key_column` value, exactly as the source does. -/
def decorateField (table : String) (pk : Option String) (c : Column) (f : FieldObj) :
    FieldObj :=
  let n := pyLower c.name
  if c.key == "PRI" then
    { f with readOnly := true, description := some ("Primary key for " ++ table) }
  else if pyIn "email" n then
    { f with format := some "email", description := some "Valid email address",
             exmpl := some "user@example.com" }
  else if pyIn "phone" n then
    { f with pattern := some "^[+]?[1-9]?[0-9]\x7b7,15\x7d$",
             description := some "Phone number (7-15 digits)",
             exmpl := some "+1234567890" }
  else if n == "priority_level_id" then
    { f with minimum := some 1, maximum := some 5,
             description := some "Priority level (1=Low, 2=Medium, 3=High, 4=Urgent, 5=Critical)" }
  else if n == "age" then
    { f with minimum := some 0, maximum := some 150, description := some "Age in years" }
  else if pyIn "status" n then
    { f with description := some "Status identifier" }
  else if pyIn "created_at" n then
    { f with description := some "Record creation timestamp", readOnly := true }
  else if pyIn "updated_at" n then
    { f with description := some "Last update timestamp", readOnly := true }
  else if pyEndsWith n "_id" && !(some n == pk) then
    { f with description := some "Foreign key reference to related entity" }
  else if pyIn "name" n then
    (if f.type == "string" then
      { f with description := some "Name or title", minLength := some 1, maxLength := some 255 }
     else { f with description := some "Name or title" })
  else if pyIn "description" n then
    (if f.type == "string" then
      { f with description := some "Detailed description", maxLength := some 1000 }
     else { f with description := some "Detailed description" })
  else f

/-- Lines 311-379: one iteration of the enhanced per-column loop.  The
primary-key/auto-increment tracking happens before decoration; the write
schema excludes auto-increment primary keys and every read-only field, and
its required list takes non-nullable non-primary columns.  The source's
`if`-block that conditionally appends to the create schema is rendered as a
conditional append on each of the two lists it mutates. -/
def processColumn (table : String) (st : BuildState) (c : Column) : BuildState :=
  let pk := if c.key == "PRI" then some c.name else st.pk
  let hasAI := st.hasAI || (c.key == "PRI" && pyIn "auto_increment" (pyLower c.extra))
  let f := decorateField table pk c (mysql_type_to_openapi_type c.ctype)
  let isNullable := c.nullable == "YES"
  let inCreate := !(c.key == "PRI" && hasAI) && !f.readOnly
  { tProps := st.tProps ++ [(c.name, f)],
    tReq := st.tReq ++ (if isNullable then [] else [c.name]),
    nProps := st.nProps ++ (if inCreate then [(c.name, { f with readOnly := false })] else []),
    nReq := st.nReq ++ (if inCreate && (!isNullable && !(c.key == "PRI")) then [c.name] else []),
    pk := pk, hasAI := hasAI }

/-- The whole enhanced per-column loop (lines 296-379). -/
def buildSchemas (table : String) (cols : List Column) : BuildState :=
  cols.foldl (processColumn table) initState

end MysqlToIndividualOpenapi

namespace MysqlToOpenapi

/-- Lines 170-181: basic field decoration — `readOnly` for the primary key,
then an independent description chain. -/
def decorateField (c : Column) (f : FieldObj) : FieldObj :=
  let n := pyLower c.name
  let f := if c.key == "PRI" then { f with readOnly := true } else f
  if pyIn "email" n then { f with description := some "Email address" }
  else if pyIn "phone" n then { f with description := some "Phone number" }
  else if pyIn "date" n then { f with description := some "Date value" }
  else if pyEndsWith n "_id" then { f with description := some "Foreign key reference" }
  else f

/-- Lines 152-197: one iteration of the basic per-column loop.  The write
("New") schema excludes only auto-increment primary keys (deleting the
`readOnly` key from the copied field), and its required list takes
non-nullable non-primary columns. -/
def processColumn (st : BuildState) (c : Column) : BuildState :=
  let pk := if c.key == "PRI" then some c.name else st.pk
  let hasAI := st.hasAI || (c.key == "PRI" && pyIn "auto_increment" (pyLower c.extra))
  let f := decorateField c (mysql_type_to_openapi_type c.ctype)
  let isNullable := c.nullable == "YES"
  let inCreate := !(c.key == "PRI" && hasAI)
  { tProps := st.tProps ++ [(c.name, f)],
    tReq := st.tReq ++ (if isNullable then [] else [c.name]),
    nProps := st.nProps ++ (if inCreate then [(c.name, { f with readOnly := false })] else []),
    nReq := st.nReq ++ (if inCreate && (!isNullable && !(c.key == "PRI")) then [c.name] else []),
    pk := pk, hasAI := hasAI }

/-- The whole basic per-column loop (lines 136-197). -/
def buildSchemas (cols : List Column) : BuildState :=
  cols.foldl processColumn initState

end MysqlToOpenapi

/-! ## The enhanced per-table resource document
(mysql_to_individual_openapi.py lines 292-728) -/
/-- Emit an optional string-valued dict entry (key present iff value set). -/
def optEntryS (k : String) (o : Option String) : List (String × PVal) :=
  match o with
  | some v => [(k, .str v)]
  | none => []

/-- Emit an optional int-valued dict entry. -/
def optEntryI (k : String) (o : Option Int) : List (String × PVal) :=
  match o with
  | some v => [(k, .intv v)]
  | none => []

/-- Emit an optional nat-valued dict entry. -/
def optEntryN (k : String) (o : Option Nat) : List (String × PVal) :=
  match o with
  | some v => [(k, .intv (v : Int))]
  | none => []

/-- The dict entries of one field schema. -/
def fieldEntries (f : FieldObj) : List (String × PVal) :=
  [("type", .str f.type)]
    ++ optEntryS "format" f.format
    ++ (if f.readOnly then [("readOnly", .boolv true)] else [])
    ++ optEntryS "description" f.description
    ++ optEntryS "example" f.exmpl
    ++ optEntryS "pattern" f.pattern
    ++ optEntryI "minimum" f.minimum
    ++ optEntryI "maximum" f.maximum
    ++ optEntryN "minLength" f.minLength
    ++ optEntryN "maxLength" f.maxLength

/-- A field schema as a document node. -/
def fieldToPVal (f : FieldObj) : PVal := pd (fieldEntries f)

/-- An object schema (`type/properties/required`) as a document node. -/
def objSchemaToPVal (props : List (String × FieldObj)) (required : List String) : PVal :=
  pd [("type", .str "object"),
      ("properties", PVal.dict (PDict.ofList (props.map (fun p => (p.1, fieldToPVal p.2))))),
      ("required", .listS required)]

namespace MysqlToIndividualOpenapi

/-- Lines 431-460: the `PaginationMeta` shared schema. -/
def paginationMetaSchema : PVal :=
  pd [("type", .str "object"),
      ("properties", pd [
        ("page", pd [("type", .str "integer"), ("description", .str "Current page number")]),
        ("limit", pd [("type", .str "integer"), ("description", .str "Items per page")]),
        ("total", pd [("type", .str "integer"), ("description", .str "Total number of items")]),
        ("pages", pd [("type", .str "integer"), ("description", .str "Total number of pages")]),
        ("has_next", pd [("type", .str "boolean"),
                         ("description", .str "Whether there is a next page")]),
        ("has_prev", pd [("type", .str "boolean"),
                         ("description", .str "Whether there is a previous page")])]),
      ("required", .listS ["page", "limit", "total", "pages"])]

/-- Lines 463-494: the `ValidationError` shared response. -/
def validationErrorResponse : PVal :=
  pd [("description", .str "Validation error with detailed field-level errors"),
      ("content", pd [("application/json", pd [("schema", pd [
        ("type", .str "object"),
        ("properties", pd [
          ("error", pd [("type", .str "string"), ("example", .str "Validation failed")]),
          ("code", pd [("type", .str "string"), ("example", .str "VALIDATION_ERROR")]),
          ("details", pd [("type", .str "array"), ("items", pd [
            ("type", .str "object"),
            ("properties", pd [
              ("field", pd [("type", .str "string")]),
              ("message", pd [("type", .str "string")]),
              ("code", pd [("type", .str "string")])])])])]),
        ("required", .listS ["error", "code"])])])])]

/-- Lines 495-515: the `NotFound` shared response. -/
def notFoundResponse (resource_name : String) : PVal :=
  pd [("description", .str "Resource not found"),
      ("content", pd [("application/json", pd [("schema", pd [
        ("type", .str "object"),
        ("properties", pd [
          ("error", pd [("type", .str "string"),
                        ("example", .str (pyCapitalize resource_name ++ " not found"))]),
          ("code", pd [("type", .str "string"), ("example", .str "NOT_FOUND")])]),
        ("required", .listS ["error", "code"])])])])]

/-- Lines 516-535: the `Conflict` shared response. -/
def conflictResponse : PVal :=
  pd [("description", .str "Resource conflict (duplicate, constraint violation)"),
      ("content", pd [("application/json", pd [("schema", pd [
        ("type", .str "object"),
        ("properties", pd [
          ("error", pd [("type", .str "string"), ("example", .str "Resource already exists")]),
          ("code", pd [("type", .str "string"), ("example", .str "CONFLICT")])])])])])]

/-- Lines 396-410: the `info` block. -/
def infoPV (table_name schema_name : String) : PVal :=
  pd [("title", .str (schema_name ++ " Management API")),
      ("description", .str ("Individual microservice API for managing " ++ table_name
        ++ " in the Seniorcare ecosystem. Provides comprehensive CRUD operations with intelligent search, filtering, and validation.")),
      ("version", .str "2.1.0"),
      ("contact", pd [
        ("name", .str (schema_name ++ " API Support")),
        ("email", .str (table_name ++ "-api@seniorcare.com")),
        ("url", .str ("https://docs.seniorcare.com/apis/" ++ table_name))]),
      ("license", pd [("name", .str "MIT"),
                      ("url", .str "https://opensource.org/licenses/MIT")])]

/-- Lines 411-424: the `servers` block. -/
def serversPV (table_name : String) : PVal :=
  pa [pd [("url", .str ("https://api.seniorcare.com/v1/" ++ table_name)),
          ("description", .str ("Production " ++ table_name ++ " service"))],
      pd [("url", .str ("https://staging-api.seniorcare.com/v1/" ++ table_name)),
          ("description", .str ("Staging " ++ table_name ++ " service"))],
      pd [("url", .str ("http://localhost:8080/v1/" ++ table_name)),
          ("description", .str ("Local development " ++ table_name ++ " service"))]]

/-- A query parameter as a document node (`name, in, required, schema,
description`, the key order used throughout the source). -/
def qpToPVal (p : QP) : PVal :=
  pd [("name", .str p.name), ("in", .str p.inLoc), ("required", .boolv p.required),
      ("schema", p.schema), ("description", .str p.description)]

/-- Lines 544-573: the collection GET operation; the advisor's parameters are
attached only when non-empty (`if query_params:`). -/
def getEndpointPV (table_name schema_name : String) (query_params : List QP) : PVal :=
  pd ([("summary", .str ("List all " ++ table_name)),
       ("description", .str ("Retrieve a paginated list of " ++ table_name
         ++ " with advanced filtering, search, and sorting capabilities")),
       ("operationId", .str ("list" ++ schema_name)),
       ("tags", pa [.str (pyCapitalize table_name)]),
       ("responses", pd [
         ("200", pd [
           ("description", .str ("Successfully retrieved list of " ++ table_name)),
           ("content", pd [("application/json", pd [("schema", pd [
             ("type", .str "object"),
             ("properties", pd [
               ("data", pd [("type", .str "array"),
                 ("items", pd [("$ref", .str ("#/components/schemas/" ++ schema_name))])]),
               ("meta", pd [("$ref", .str "#/components/schemas/PaginationMeta")])]),
             ("required", .listS ["data", "meta"])])])])]),
         ("400", pd [("$ref", .str "#/components/responses/ValidationError")])])]
      ++ (if query_params.isEmpty then []
          else [("parameters", pa (query_params.map qpToPVal))]))

/-- Lines 576-601: the collection POST operation. -/
def postEndpointPV (table_name schema_name new_schema_name resource_name : String) : PVal :=
  pd [("summary", .str ("Create new " ++ resource_name)),
      ("description", .str ("Create a new " ++ resource_name
        ++ " record with comprehensive validation")),
      ("operationId", .str ("create" ++ stripTrailingS schema_name)),
      ("tags", pa [.str (pyCapitalize table_name)]),
      ("requestBody", pd [
        ("required", .boolv true),
        ("content", pd [("application/json", pd [
          ("schema", pd [("$ref", .str ("#/components/schemas/" ++ new_schema_name))])])])]),
      ("responses", pd [
        ("201", pd [
          ("description", .str (pyCapitalize resource_name ++ " created successfully")),
          ("content", pd [("application/json", pd [
            ("schema", pd [("$ref", .str ("#/components/schemas/" ++ schema_name))])])])]),
        ("400", pd [("$ref", .str "#/components/responses/ValidationError")]),
        ("409", pd [("$ref", .str "#/components/responses/Conflict")])])]

/-- Line 610: the native type of the primary-key column is the type of the
first column whose name equals `primary_key_column`; the fallback is
unreachable because the primary-key name always comes from `columns`. -/
def pkTypeOf (columns : List Column) (p : String) : String :=
  match columns.find? (fun c => c.name == p) with
  | some c => if pyIn "int" (pyLower c.ctype) then "integer" else "string"
  | none => "string"

/-- Lines 610-614: the path-parameter schema for the primary key. -/
def pkSchemaOf (columns : List Column) (p : String) : PVal :=
  let pk_type := pkTypeOf columns p
  if pk_type == "integer" then
    pd [("type", .str pk_type), ("format", .str "int64"), ("minimum", .intv 1)]
  else pd [("type", .str pk_type)]

/-- The path parameter entry shared by the four item operations. -/
def pkParamPV (resource_name pk : String) (pk_schema : PVal) : PVal :=
  pd [("name", .str pk), ("in", .str "path"), ("required", .boolv true),
      ("schema", pk_schema),
      ("description", .str ("The unique identifier of the " ++ resource_name))]

/-- Lines 616-726: the item path's GET/PUT/PATCH/DELETE operations. -/
def itemOpsPV (table_name schema_name new_schema_name update_schema_name
    resource_name pk : String) (pk_schema : PVal) : PVal :=
  pd [("get", pd [
        ("summary", .str ("Get " ++ resource_name ++ " by ID")),
        ("description", .str ("Retrieve a specific " ++ resource_name ++ " by its identifier")),
        ("operationId", .str ("get" ++ stripTrailingS schema_name ++ "ById")),
        ("tags", pa [.str (pyCapitalize table_name)]),
        ("parameters", pa [pkParamPV resource_name pk pk_schema]),
        ("responses", pd [
          ("200", pd [
            ("description", .str (pyCapitalize resource_name ++ " found")),
            ("content", pd [("application/json", pd [
              ("schema", pd [("$ref", .str ("#/components/schemas/" ++ schema_name))])])])]),
          ("404", pd [("$ref", .str "#/components/responses/NotFound")])])]),
      ("put", pd [
        ("summary", .str ("Update " ++ resource_name ++ " (full replace)")),
        ("description", .str ("Completely replace an existing " ++ resource_name
          ++ " with new data")),
        ("operationId", .str ("update" ++ stripTrailingS schema_name)),
        ("tags", pa [.str (pyCapitalize table_name)]),
        ("parameters", pa [pkParamPV resource_name pk pk_schema]),
        ("requestBody", pd [
          ("required", .boolv true),
          ("content", pd [("application/json", pd [
            ("schema", pd [("$ref", .str ("#/components/schemas/" ++ new_schema_name))])])])]),
        ("responses", pd [
          ("200", pd [
            ("description", .str (pyCapitalize resource_name ++ " updated successfully")),
            ("content", pd [("application/json", pd [
              ("schema", pd [("$ref", .str ("#/components/schemas/" ++ schema_name))])])])]),
          ("404", pd [("$ref", .str "#/components/responses/NotFound")]),
          ("400", pd [("$ref", .str "#/components/responses/ValidationError")])])]),
      ("patch", pd [
        ("summary", .str ("Partially update " ++ resource_name)),
        ("description", .str ("Update specific fields of an existing " ++ resource_name)),
        ("operationId", .str ("patch" ++ stripTrailingS schema_name)),
        ("tags", pa [.str (pyCapitalize table_name)]),
        ("parameters", pa [pkParamPV resource_name pk pk_schema]),
        ("requestBody", pd [
          ("required", .boolv true),
          ("content", pd [("application/json", pd [
            ("schema", pd [("$ref", .str ("#/components/schemas/" ++ update_schema_name))])])])]),
        ("responses", pd [
          ("200", pd [
            ("description", .str (pyCapitalize resource_name ++ " partially updated successfully")),
            ("content", pd [("application/json", pd [
              ("schema", pd [("$ref", .str ("#/components/schemas/" ++ schema_name))])])])]),
          ("404", pd [("$ref", .str "#/components/responses/NotFound")]),
          ("400", pd [("$ref", .str "#/components/responses/ValidationError")])])]),
      ("delete", pd [
        ("summary", .str ("Delete " ++ resource_name)),
        ("description", .str ("Permanently delete a " ++ resource_name ++ " from the system")),
        ("operationId", .str ("delete" ++ stripTrailingS schema_name)),
        ("tags", pa [.str (pyCapitalize table_name)]),
        ("parameters", pa [pkParamPV resource_name pk pk_schema]),
        ("responses", pd [
          ("204", pd [("description", .str (pyCapitalize resource_name
            ++ " deleted successfully"))]),
          ("404", pd [("$ref", .str "#/components/responses/NotFound")])])])]

/-- The document's path map entries: always the collection path `/`; the item
path is added under Python truthiness of `primary_key_column` (absent `None`
and the empty string both skip it), keyed by the literal path template
`/{pk}`. -/
def pathsOfSpec (table_name schema_name new_schema_name update_schema_name
    resource_name : String) (columns : List Column) (query_params : List QP)
    (pk : Option String) : List (String × PVal) :=
  [("/", pd [("get", getEndpointPV table_name schema_name query_params),
             ("post", postEndpointPV table_name schema_name new_schema_name resource_name)])]
  ++ (match pk with
      | some p =>
          if p = "" then []
          else
            [("/\x7b" ++ p ++ "\x7d",
              itemOpsPV table_name schema_name new_schema_name update_schema_name
                resource_name p (pkSchemaOf columns p))]
      | none => [])

/-- Lines 426-537: the `components` block — the three table schemas plus
`PaginationMeta`, and the three shared responses.  The update schema shares
the create schema's properties and has an empty required list (lines
387-392). -/
def componentsPV (schema_name new_schema_name update_schema_name resource_name : String)
    (st : BuildState) : PVal :=
  pd [("schemas", PVal.dict (PDict.ofList [
        (schema_name, objSchemaToPVal st.tProps st.tReq),
        (new_schema_name, objSchemaToPVal st.nProps st.nReq),
        (update_schema_name, objSchemaToPVal st.nProps []),
        ("PaginationMeta", paginationMetaSchema)])),
      ("responses", pd [
        ("ValidationError", validationErrorResponse),
        ("NotFound", notFoundResponse resource_name),
        ("Conflict", conflictResponse)])]

/-- Lines 292-728: the enhanced per-table OpenAPI document. -/
def create_enhanced_individual_table_spec (table_name : String) (columns : List Column) :
    PVal :=
  let st := buildSchemas table_name columns
  let schema_name := pyCapitalize table_name
  let new_schema_name := "Create" ++ stripTrailingS schema_name
  let update_schema_name := "Update" ++ stripTrailingS schema_name
  let resource_name := resource_singular table_name
  let query_params := add_smart_query_params columns table_name
  pd [("openapi", .str "3.1.0"),
      ("info", infoPV table_name schema_name),
      ("servers", serversPV table_name),
      ("paths", PVal.dict (PDict.ofList (pathsOfSpec table_name schema_name new_schema_name
        update_schema_name resource_name columns query_params st.pk))),
      ("components", componentsPV schema_name new_schema_name update_schema_name
        resource_name st)]

end MysqlToIndividualOpenapi

/-- The path-template keys of a generated document. -/
def pathKeysOf (doc : PVal) : List String :=
  match doc.get? "paths" with
  | some (.dict kvs) => kvs.keys
  | _ => []

/-- The HTTP verb keys under one path template of a generated document. -/
def verbKeysOf (doc : PVal) (pathKey : String) : List String :=
  match doc.get? "paths" with
  | some p =>
      match p.get? pathKey with
      | some (.dict kvs) => kvs.keys
      | _ => []
  | _ => []

/-- The `components.schemas` keys of a generated document. -/
def schemaKeysOf (doc : PVal) : List String :=
  match doc.get? "components" with
  | some comps =>
      match comps.get? "schemas" with
      | some (.dict kvs) => kvs.keys
      | _ => []
  | _ => []

/-- The `components.responses` keys of a generated document. -/
def responseKeysOf (doc : PVal) : List String :=
  match doc.get? "components" with
  | some comps =>
      match comps.get? "responses" with
      | some (.dict kvs) => kvs.keys
      | _ => []
  | _ => []

/-! ## Referential integrity of the enhanced document (C6) -/
/-- The `$ref` contribution of one dict entry. -/
def entryRefs : String × PVal → List String :=
  fun kv =>
    (if kv.1 = "$ref" then (match kv.2 with | .str s => [s] | _ => []) else [])
      ++ collectRefs kv.2

/-- Whether a document node is a bare string. -/
def PVal.isStrB : PVal → Bool
  | .str _ => true
  | _ => false

/-- All parameters of a list have reference-free schemas. -/
def allNoRefs (l : List MysqlToIndividualOpenapi.QP) : Prop :=
  ∀ p ∈ l, collectRefs p.schema = []

/-- The reference targets that can occur in an enhanced per-table document:
the three table schemas, `PaginationMeta`, and the three shared responses. -/
def allowedRefs (sn nn un : String) : List String :=
  ["#/components/schemas/" ++ sn, "#/components/schemas/" ++ nn,
   "#/components/schemas/" ++ un, "#/components/schemas/PaginationMeta",
   "#/components/responses/ValidationError", "#/components/responses/NotFound",
   "#/components/responses/Conflict"]

/-- Lookup of a named schema in a generated document's `components.schemas`. -/
def schemaOf (doc : PVal) (k : String) : Option PVal :=
  match doc.get? "components" with
  | some comps =>
      match comps.get? "schemas" with
      | some s => s.get? k
      | none => none
  | none => none

/-- The PATCH request-body schema of a generated document's item path. -/
def patchBodyRef (doc : PVal) (itemKey : String) : Option PVal :=
  match doc.get? "paths" with
  | some ps =>
      match ps.get? itemKey with
      | some ops =>
          match ops.get? "patch" with
          | some op =>
              match op.get? "requestBody" with
              | some rb =>
                  match rb.get? "content" with
                  | some ct =>
                      match ct.get? "application/json" with
                      | some aj => aj.get? "schema"
                      | none => none
                  | none => none
              | none => none
          | none => none
      | none => none
  | none => none

/-! ## Failure isolation of the export loop (C8) -/
namespace MysqlToIndividualOpenapi

/-- Modelled tuple handling of the per-column loop (lines 311-379 together
with the type mapper and decoration chain): mirrors where that loop raises.
Indices 0-4 are read unconditionally, so a tuple shorter than five entries
raises IndexError; `.lower()` raises AttributeError on a None type (always
evaluated, line 324), on a None extra entry of a `PRI` column (line 321),
and on a None name of a non-`PRI` column (decoration chain, line 330).  A
None name on a `PRI` column survives this loop but can still raise later, at
line 91 inside `add_smart_query_params` — that site is modelled in
`processTable` — so the parse keeps the raw optional name alongside the
assembled `Column`.  The surviving `Column`'s name field holds the empty
string: like Python's None it is falsy for the item-path guard (line 609)
and ends no `_id` (line 354); the only trace in an emitted document is the
read-schema property key for that column (None in Python, the empty string
here), which nothing inspects.  Entries that are only compared (`Null`,
`Key`) or never lowered default to the empty string, which compares unequal
to `YES`/`PRI` exactly as None does. -/
def parseColumn (c : List (Option String)) : Except String (Option String × Column) :=
  if c.length < 5 then .error "IndexError"
  else
    let name? := c.getD 0 none
    let type? := c.getD 1 none
    let null? := c.getD 2 none
    let key? := c.getD 3 none
    let extra? := if 5 < c.length then c.getD 5 none else some ""
    match type? with
    | none => .error "AttributeError"
    | some ctype =>
      if key? == some "PRI" then
        match extra? with
        | none => .error "AttributeError"
        | some extra => .ok (name?, ⟨name?.getD "", ctype, null?.getD "", "PRI", extra⟩)
      else
        match name? with
        | none => .error "AttributeError"
        | some name =>
            .ok (some name, ⟨name, ctype, null?.getD "", key?.getD "", extra?.getD ""⟩)

/-- Parse all raw rows of one table, failing at the first bad row exactly as
the Python loop raises there. -/
def parseColumns :
    List (List (Option String)) → Except String (List (Option String × Column))
  | [] => .ok []
  | c :: rest => do
      let col ← parseColumn c
      let cols ← parseColumns rest
      pure (col :: cols)

/-- Assemble one table's document from its raw rows; any error aborts just
this table's assembly (all-or-nothing per table).  After the column loop,
the assembler calls `add_smart_query_params` (line 541), which for a
searchable table lowers every raw column name
(line 91, `column_names = [col[0].lower() for col in columns]`) and so
raises AttributeError on any surviving None name — possible only on a `PRI`
column — before anything is written; for a non-searchable table line 84
returns early and no name is lowered there. -/
def processTable (t : String × List (List (Option String))) : Except String PVal := do
  let pcols ← parseColumns t.2
  if should_generate_query_params_individual t.1 && pcols.any (fun pc => pc.1.isNone) then
    .error "AttributeError"
  else
    pure (create_enhanced_individual_table_spec t.1 (pcols.map Prod.snd))

/-- One iteration of the export loop (lines 786-839): a table with no columns
is skipped (`if not columns: continue`), and any error during assembly is
caught at the per-table boundary (`except ... continue`). -/
def tryProcessTable (t : String × List (List (Option String))) : Option PVal :=
  if t.2.isEmpty then none
  else
    match processTable t with
    | .ok doc => some doc
    | .error _ => none

/-- The export loop over all tables: the successfully generated documents, in
table order (mysql_to_individual_openapi.py lines 786-839; the run-level
outcome mirrors mysql_to_openapi.py lines 408-410, where the run is a failure
exactly when no table was processed). -/
def runExport (tables : List (String × List (List (Option String)))) :
    List (String × PVal) :=
  tables.foldl (fun acc t =>
    match tryProcessTable t with
    | some doc => acc ++ [(t.1, doc)]
    | none => acc) []

end MysqlToIndividualOpenapi

theorem pyIn_iff {needle hay : String} : pyIn needle hay = true ↔ needle.data <:+: hay.data := by
  simp [pyIn]

theorem pyEndsWith_iff {s x : String} : pyEndsWith s x = true ↔ x.data <:+ s.data := by
  simp [pyEndsWith]

/-- Substring containment is transitive along a fixed sub-needle. -/
theorem pyIn_of_pyIn_of_infix {a b hay : String} (h : pyIn b hay = true)
    (hab : a.data <:+: b.data) : pyIn a hay = true := by
  exact pyIn_iff.mpr (hab.trans (pyIn_iff.mp h))

/-- Lower-casing preserves substring containment of an already-lower-case needle. -/
theorem pyIn_pyLower_of_pyIn {needle hay : String} (h : pyIn needle hay = true)
    (hfix : needle.data.map Char.toLower = needle.data) : pyIn needle (pyLower hay) = true := by
  have := (pyIn_iff.mp h).map Char.toLower
  rw [hfix] at this
  exact pyIn_iff.mpr this

/-- C3: the Type Mapper is a total deterministic function; any input whose
substring set contains "bigint" maps to integer/int64 in both variants; the
exact input "tinyint(1)" maps to boolean in the enhanced (boolean-sensitive)
variant and to integer/int32 in the basic variant; every input yields exactly
one output type, drawn from the OpenAPI primitive types. -/
theorem c3_type_mapper :
    (∀ s : String, pyIn "bigint" s = true →
      MysqlToOpenapi.mysql_type_to_openapi_type s
          = { type := "integer", format := some "int64" } ∧
      MysqlToIndividualOpenapi.mysql_type_to_openapi_type s
          = { type := "integer", format := some "int64" }) ∧
    MysqlToIndividualOpenapi.mysql_type_to_openapi_type "tinyint(1)" = { type := "boolean" } ∧
    MysqlToOpenapi.mysql_type_to_openapi_type "tinyint(1)"
        = { type := "integer", format := some "int32" } ∧
    (∀ s : String,
      (MysqlToOpenapi.mysql_type_to_openapi_type s).type
          ∈ (["integer", "number", "string", "boolean", "object"] : List String) ∧
      (MysqlToIndividualOpenapi.mysql_type_to_openapi_type s).type
          ∈ (["integer", "number", "string", "boolean", "object"] : List String)) := by
  refine ⟨?_, by decide, by decide, ?_⟩
  · intro s h
    have hlow : pyIn "bigint" (pyLower s) = true :=
      pyIn_pyLower_of_pyIn h (by decide)
    have hint : pyIn "int" (pyLower s) = true :=
      pyIn_of_pyIn_of_infix hlow (by decide)
    constructor
    · simp [MysqlToOpenapi.mysql_type_to_openapi_type, hlow, hint]
    · simp [MysqlToIndividualOpenapi.mysql_type_to_openapi_type, hlow, hint]
  · intro s
    constructor
    · unfold MysqlToOpenapi.mysql_type_to_openapi_type
      dsimp only
      repeat' split
      all_goals simp
    · unfold MysqlToIndividualOpenapi.mysql_type_to_openapi_type
      dsimp only
      repeat' split
      all_goals simp

/-- Witness for C3 at the concrete input "bigint(20)". -/
theorem c3_type_mapper_witness :
    MysqlToOpenapi.mysql_type_to_openapi_type "bigint(20)"
        = { type := "integer", format := some "int64" } ∧
    MysqlToIndividualOpenapi.mysql_type_to_openapi_type "bigint(20)"
        = { type := "integer", format := some "int64" } :=
  c3_type_mapper.1 "bigint(20)" (by decide)

/-- C9: `resource_singular` strips exactly one trailing "s" when present and
is the identity otherwise; `resource_singular "tasks" = "task"` and
`resource_singular "status" = "statu"`.  As a Lean function it is by
construction pure and deterministic (the same table name always yields the
same derived identifier). -/
theorem c9_resource_singular :
    resource_singular "tasks" = "task" ∧
    resource_singular "status" = "statu" ∧
    (∀ t : String,
      (pyEndsWith t "s" = true → resource_singular t ++ "s" = t) ∧
      (pyEndsWith t "s" = false → resource_singular t = t)) := by
  refine ⟨by decide, by decide, ?_⟩
  intro t
  constructor
  · intro h
    obtain ⟨u, hu⟩ := pyEndsWith_iff.mp h
    have hdata : ("s" : String).data = ['s'] := by decide
    rw [hdata] at hu
    apply String.ext
    rw [String.data_append]
    simp only [resource_singular, if_pos h, pyDropLast]
    rw [← hu, List.dropLast_concat]
  · intro h
    simp [resource_singular, h]

/-- Witness for C9: the stripping law applied at "tasks", the identity law at "task". -/
theorem c9_resource_singular_witness :
    resource_singular "tasks" ++ "s" = "tasks" ∧ resource_singular "task" = "task" :=
  ⟨(c9_resource_singular.2.2 "tasks").1 (by decide),
   (c9_resource_singular.2.2 "task").2 (by decide)⟩

open MysqlToIndividualOpenapi in
/-- C4: for every Searchable table (one the advisor classifies as deserving
query parameters) and every column list, the advisor's parameter sequence is
non-empty and its last four entries are exactly `page, limit, sort_by,
sort_order`, after any table-specific, date-range and text-search filters. -/
theorem c4_param_ordering (table_name : String) (columns : List Column)
    (h : should_generate_query_params_individual table_name = true) :
    add_smart_query_params columns table_name ≠ [] ∧
    ∃ pre, (add_smart_query_params columns table_name).map QP.name
        = pre ++ ["page", "limit", "sort_by", "sort_order"] := by
  unfold add_smart_query_params
  rw [h]
  dsimp only
  constructor
  · simp
  · refine ⟨?_, ?_⟩
    · exact
        ((if pyIn "users" (pyLower table_name) || pyIn "user" (pyLower table_name) then
            [roleIdParam, activeParam]
              ++ (if (columns.map (fun c => pyLower c.name)).any (fun c => pyIn "name" c) then
                    [nameSearchParam] else [])
          else if pyIn "task" (pyLower table_name) then
            [statusIdParam, priorityLevelParam, assignedToParam]
              ++ (if (columns.map (fun c => pyLower c.name)).any (fun c => pyIn "due" c) then
                    [dueDateFromParam, dueDateToParam] else [])
          else if pyIn "contact" (pyLower table_name) then [relationshipParam, isEmergencyParam]
          else if pyIn "notification" (pyLower table_name) then
            [isReadParam, notificationTypeParam]
          else [])
        ++ (if (columns.map (fun c => pyLower c.name)).any (fun c => pyIn "created_at" c) then
              [createdFromParam, createdToParam] else [])
        ++ (if !((columns.filter (fun c =>
                pyIn "varchar" (pyLower c.ctype) || pyIn "text" (pyLower c.ctype))).map
                Column.name).isEmpty
              && ((columns.filter (fun c =>
                pyIn "varchar" (pyLower c.ctype) || pyIn "text" (pyLower c.ctype))).map
                Column.name).length > 1 then
              [searchParam ((columns.filter (fun c =>
                pyIn "varchar" (pyLower c.ctype) || pyIn "text" (pyLower c.ctype))).map
                Column.name)] else [])).map QP.name
    · simp [pageParam, limitParam, sortByParam, sortOrderParam]

open MysqlToIndividualOpenapi in
/-- Witness for C4 at table "users" with no columns. -/
theorem c4_param_ordering_witness :
    add_smart_query_params [] "users" ≠ [] ∧
    ∃ pre, (add_smart_query_params [] "users").map QP.name
        = pre ++ ["page", "limit", "sort_by", "sort_order"] :=
  c4_param_ordering "users" [] (by decide)

open MysqlToIndividualOpenapi in
/-- C5: a table whose lower-cased name contains any system-table fragment
(`log_`, `audit_`, `temp_`, `backup_`, or a listed lookup-table name) is
denied query parameters regardless of its columns — the deny-list is checked
before the allow-lists, so it wins even on a simultaneous allow-list match;
in particular `audit_log` never receives query parameters. -/
theorem c5_system_denylist (table_name : String) (columns : List Column)
    (h : system_tables.any (fun s => pyIn s (pyLower table_name)) = true) :
    should_generate_query_params_individual table_name = false ∧
    add_smart_query_params columns table_name = [] ∧
    (∀ columns2 : List Column, add_smart_query_params columns2 "audit_log" = []) := by
  have hsg : should_generate_query_params_individual table_name = false := by
    unfold should_generate_query_params_individual
    dsimp only
    rw [h]
    simp
  refine ⟨hsg, ?_, ?_⟩
  · unfold add_smart_query_params
    rw [hsg]
    simp
  · intro columns2
    unfold add_smart_query_params
    have haudit : should_generate_query_params_individual "audit_log" = false := by decide
    rw [haudit]
    simp

open MysqlToIndividualOpenapi in
/-- Witness for C5 at table "audit_tasks", whose name also matches the
high-priority allow-list fragment "tasks" yet gets no parameters. -/
theorem c5_system_denylist_witness :
    should_generate_query_params_individual "audit_tasks" = false ∧
    add_smart_query_params [⟨"id", "int(11)", "NO", "PRI", "auto_increment"⟩] "audit_tasks" = [] ∧
    (∀ columns2 : List Column, add_smart_query_params columns2 "audit_log" = []) :=
  c5_system_denylist "audit_tasks" [⟨"id", "int(11)", "NO", "PRI", "auto_increment"⟩]
    (by decide)

/-- A primary-key column is always decorated read-only in the enhanced variant. -/
theorem enh_decorate_pri_readOnly (table : String) (pk : Option String) (c : Column)
    (f : FieldObj) (h : (c.key == "PRI") = true) :
    (MysqlToIndividualOpenapi.decorateField table pk c f).readOnly = true := by
  unfold MysqlToIndividualOpenapi.decorateField
  dsimp only
  rw [h]
  simp

/-- Membership in a conditional append. -/
theorem mem_append_ite_nil {α : Type} {x : α} {l ys : List α} {b : Bool}
    (h : x ∈ l ++ (if b then ys else [])) : x ∈ l ∨ (b = true ∧ x ∈ ys) := by
  cases b <;> simp_all

/-- Write-required-subset invariant, enhanced loop: names in the write
schema's required list are always among the write schema's property names. -/
theorem enh_nReq_subset (table : String) :
    ∀ (cols : List Column) (st : BuildState),
      (∀ n ∈ st.nReq, n ∈ st.nProps.map Prod.fst) →
      ∀ n ∈ (cols.foldl (MysqlToIndividualOpenapi.processColumn table) st).nReq,
        n ∈ (cols.foldl (MysqlToIndividualOpenapi.processColumn table) st).nProps.map Prod.fst := by
  intro cols
  induction cols with
  | nil => intro st h; simpa using h
  | cons c rest ih =>
    intro st h
    simp only [List.foldl_cons]
    apply ih
    intro n hn
    unfold MysqlToIndividualOpenapi.processColumn at hn ⊢
    dsimp only at hn ⊢
    rcases mem_append_ite_nil hn with hn | ⟨hg, hn⟩
    · simp only [List.map_append, List.mem_append]
      exact Or.inl (h n hn)
    · rw [Bool.and_eq_true] at hg
      have hg1 := hg.1
      simp only [List.mem_singleton] at hn
      subst hn
      rw [hg1]
      simp

/-- Write-required-subset invariant, basic loop. -/
theorem basic_nReq_subset :
    ∀ (cols : List Column) (st : BuildState),
      (∀ n ∈ st.nReq, n ∈ st.nProps.map Prod.fst) →
      ∀ n ∈ (cols.foldl MysqlToOpenapi.processColumn st).nReq,
        n ∈ (cols.foldl MysqlToOpenapi.processColumn st).nProps.map Prod.fst := by
  intro cols
  induction cols with
  | nil => intro st h; simpa using h
  | cons c rest ih =>
    intro st h
    simp only [List.foldl_cons]
    apply ih
    intro n hn
    unfold MysqlToOpenapi.processColumn at hn ⊢
    dsimp only at hn ⊢
    rcases mem_append_ite_nil hn with hn | ⟨hg, hn⟩
    · simp only [List.map_append, List.mem_append]
      exact Or.inl (h n hn)
    · rw [Bool.and_eq_true] at hg
      have hg1 := hg.1
      simp only [List.mem_singleton] at hn
      subst hn
      rw [hg1]
      simp

/-- C2: in both variants, every column name in the write schema's required
list also appears among the write schema's property names — a field excluded
from the write schema is never listed as required. -/
theorem c2_required_subset_properties (table : String) (cols : List Column) (n : String) :
    (n ∈ (MysqlToIndividualOpenapi.buildSchemas table cols).nReq →
      n ∈ (MysqlToIndividualOpenapi.buildSchemas table cols).nProps.map Prod.fst) ∧
    (n ∈ (MysqlToOpenapi.buildSchemas cols).nReq →
      n ∈ (MysqlToOpenapi.buildSchemas cols).nProps.map Prod.fst) := by
  constructor
  · intro hn
    exact enh_nReq_subset table cols initState (by simp [initState]) n hn
  · intro hn
    exact basic_nReq_subset cols initState (by simp [initState]) n hn

/-- Witness for C2 on a concrete users-like table. -/
theorem c2_required_subset_properties_witness :
    "email" ∈ (MysqlToIndividualOpenapi.buildSchemas "users"
        [⟨"id", "int(11)", "NO", "PRI", "auto_increment"⟩,
         ⟨"email", "varchar(255)", "NO", "", ""⟩]).nReq ∧
    "email" ∈ (MysqlToIndividualOpenapi.buildSchemas "users"
        [⟨"id", "int(11)", "NO", "PRI", "auto_increment"⟩,
         ⟨"email", "varchar(255)", "NO", "", ""⟩]).nProps.map Prod.fst :=
  ⟨by decide,
   (c2_required_subset_properties "users"
      [⟨"id", "int(11)", "NO", "PRI", "auto_increment"⟩,
       ⟨"email", "varchar(255)", "NO", "", ""⟩] "email").1 (by decide)⟩

/-- Non-membership in a conditional single append, key-projection version. -/
theorem not_mem_map_fst_append_ite {β : Type} (x : String) (l : List (String × β))
    {b : Bool} (nm : String) (v : β) (h1 : x ∉ l.map Prod.fst)
    (h : b = false ∨ nm ≠ x) : x ∉ (l ++ (if b then [(nm, v)] else [])).map Prod.fst := by
  rcases h with h | h <;> cases b <;> simp_all
  exact fun hx => h hx.symm

/-- Non-membership in a conditional single append, plain version. -/
theorem not_mem_append_ite_single (x : String) (l : List String) {b : Bool} (nm : String)
    (h1 : x ∉ l) (h : b = false ∨ nm ≠ x) : x ∉ l ++ (if b then [nm] else []) := by
  rcases h with h | h <;> cases b <;> simp_all
  exact fun hx => h hx.symm

/-- Enhanced loop: a name carried only by primary-key columns never enters the
write schema's properties or required list (primary keys are decorated
read-only, and read-only fields are excluded from the create schema). -/
theorem enh_pk_not_in_write (table : String) :
    ∀ (cols : List Column) (st : BuildState) (x : String),
      x ∉ st.nProps.map Prod.fst → x ∉ st.nReq →
      (∀ c ∈ cols, c.name = x → (c.key == "PRI") = true) →
      x ∉ (cols.foldl (MysqlToIndividualOpenapi.processColumn table) st).nProps.map Prod.fst ∧
      x ∉ (cols.foldl (MysqlToIndividualOpenapi.processColumn table) st).nReq := by
  intro cols
  induction cols with
  | nil => intro st x h1 h2 _; exact ⟨h1, h2⟩
  | cons c rest ih =>
    intro st x h1 h2 hall
    simp only [List.foldl_cons]
    refine ih _ x ?_ ?_ (fun d hd hdx => hall d (List.mem_cons_of_mem c hd) hdx)
    · unfold MysqlToIndividualOpenapi.processColumn
      dsimp only
      refine not_mem_map_fst_append_ite x st.nProps c.name _ h1 ?_
      by_cases hx : c.name = x
      · left
        have hkey := hall c (List.mem_cons_self c rest) hx
        simp [MysqlToIndividualOpenapi.decorateField, hkey]
      · exact Or.inr hx
    · unfold MysqlToIndividualOpenapi.processColumn
      dsimp only
      refine not_mem_append_ite_single x st.nReq c.name h2 ?_
      by_cases hx : c.name = x
      · left
        have hkey := hall c (List.mem_cons_self c rest) hx
        simp [hkey]
      · exact Or.inr hx

/-- Basic loop: a name carried only by primary-key columns never enters the
write schema's required list. -/
theorem basic_pk_not_in_required :
    ∀ (cols : List Column) (st : BuildState) (x : String),
      x ∉ st.nReq →
      (∀ c ∈ cols, c.name = x → (c.key == "PRI") = true) →
      x ∉ (cols.foldl MysqlToOpenapi.processColumn st).nReq := by
  intro cols
  induction cols with
  | nil => intro st x h2 _; exact h2
  | cons c rest ih =>
    intro st x h2 hall
    simp only [List.foldl_cons]
    refine ih _ x ?_ (fun d hd hdx => hall d (List.mem_cons_of_mem c hd) hdx)
    unfold MysqlToOpenapi.processColumn
    dsimp only
    refine not_mem_append_ite_single x st.nReq c.name h2 ?_
    by_cases hx : c.name = x
    · left
      have hkey := hall c (List.mem_cons_self c rest) hx
      simp [hkey]
    · exact Or.inr hx

/-- Basic loop: a name carried only by auto-increment primary-key columns
never enters the write schema's properties. -/
theorem basic_auto_pk_not_in_write :
    ∀ (cols : List Column) (st : BuildState) (x : String),
      x ∉ st.nProps.map Prod.fst →
      (∀ c ∈ cols, c.name = x →
        (c.key == "PRI") = true ∧ pyIn "auto_increment" (pyLower c.extra) = true) →
      x ∉ (cols.foldl MysqlToOpenapi.processColumn st).nProps.map Prod.fst := by
  intro cols
  induction cols with
  | nil => intro st x h1 _; exact h1
  | cons c rest ih =>
    intro st x h1 hall
    simp only [List.foldl_cons]
    refine ih _ x ?_ (fun d hd hdx => hall d (List.mem_cons_of_mem c hd) hdx)
    unfold MysqlToOpenapi.processColumn
    dsimp only
    refine not_mem_map_fst_append_ite x st.nProps c.name _ h1 ?_
    by_cases hx : c.name = x
    · left
      obtain ⟨hkey, hauto⟩ := hall c (List.mem_cons_self c rest) hx
      simp [hkey, hauto]
    · exact Or.inr hx

/-- Basic loop: once a name is among the write schema's properties it stays. -/
theorem basic_nProps_mono :
    ∀ (cols : List Column) (st : BuildState) (x : String),
      x ∈ st.nProps.map Prod.fst →
      x ∈ (cols.foldl MysqlToOpenapi.processColumn st).nProps.map Prod.fst := by
  intro cols
  induction cols with
  | nil => intro st x h; exact h
  | cons c rest ih =>
    intro st x h
    simp only [List.foldl_cons]
    apply ih
    unfold MysqlToOpenapi.processColumn
    dsimp only
    simp only [List.map_append, List.mem_append]
    exact Or.inl h

/-- Basic loop, one step: a non-auto-increment primary-key column processed
while the auto-increment flag is off lands in the write schema's properties. -/
theorem basic_step_nProps_mem (st : BuildState) (c : Column)
    (hkey : (c.key == "PRI") = true) (hauto : pyIn "auto_increment" (pyLower c.extra) = false)
    (hAI : st.hasAI = false) :
    c.name ∈ (MysqlToOpenapi.processColumn st c).nProps.map Prod.fst := by
  unfold MysqlToOpenapi.processColumn
  dsimp only
  simp [hkey, hauto, hAI]

/-- Basic loop: columns without key role `PRI` never flip the auto-increment
flag. -/
theorem basic_hasAI_stable :
    ∀ (cols : List Column) (st : BuildState),
      (∀ c ∈ cols, (c.key == "PRI") = false) →
      (cols.foldl MysqlToOpenapi.processColumn st).hasAI = st.hasAI := by
  intro cols
  induction cols with
  | nil => intro st _; rfl
  | cons c rest ih =>
    intro st hall
    simp only [List.foldl_cons]
    rw [ih _ (fun d hd => hall d (List.mem_cons_of_mem c hd))]
    unfold MysqlToOpenapi.processColumn
    dsimp only
    simp [hall c (List.mem_cons_self c rest)]

/-- C1 counterexample: a table whose single column is a non-auto-increment,
non-nullable primary key (`code varchar(10) NOT NULL PRIMARY KEY`).  The
claim requires the write schema to list `code` as required — the basic
variant includes it among the properties but not in `required`, and the
enhanced variant excludes the field from the write schema altogether. -/
theorem c1_counterexample :
    "code" ∉ (MysqlToOpenapi.buildSchemas [⟨"code", "varchar(10)", "NO", "PRI", ""⟩]).nReq ∧
    "code" ∈ (MysqlToOpenapi.buildSchemas
        [⟨"code", "varchar(10)", "NO", "PRI", ""⟩]).nProps.map Prod.fst ∧
    "code" ∉ (MysqlToIndividualOpenapi.buildSchemas "codes"
        [⟨"code", "varchar(10)", "NO", "PRI", ""⟩]).nProps.map Prod.fst ∧
    "code" ∉ (MysqlToIndividualOpenapi.buildSchemas "codes"
        [⟨"code", "varchar(10)", "NO", "PRI", ""⟩]).nReq := by
  decide

/-- C1 (amended): for a table whose unique primary-key column `c` has a name
no other column shares: the enhanced variant always excludes the primary key
from the write schema's properties and required list (read-only exclusion);
the basic variant never lists it in required, excludes it from the write
properties when auto-increment, and includes it among the write properties
(still not required) when not auto-increment. -/
theorem c1_amended (table : String) (cols : List Column) (c : Column)
    (h1 : (cols.map Column.name).Nodup) (h2 : c ∈ cols) (h3 : c.key = "PRI")
    (h4 : ∀ d ∈ cols, d.key = "PRI" → d = c) :
    c.name ∉ (MysqlToIndividualOpenapi.buildSchemas table cols).nProps.map Prod.fst ∧
    c.name ∉ (MysqlToIndividualOpenapi.buildSchemas table cols).nReq ∧
    c.name ∉ (MysqlToOpenapi.buildSchemas cols).nReq ∧
    (pyIn "auto_increment" (pyLower c.extra) = true →
      c.name ∉ (MysqlToOpenapi.buildSchemas cols).nProps.map Prod.fst) ∧
    (pyIn "auto_increment" (pyLower c.extra) = false →
      c.name ∈ (MysqlToOpenapi.buildSchemas cols).nProps.map Prod.fst) := by
  have hnameKey : ∀ d ∈ cols, d.name = c.name → (d.key == "PRI") = true := by
    intro d hd hdn
    have hdc : d = c := List.inj_on_of_nodup_map h1 hd h2 hdn
    subst hdc
    exact beq_iff_eq.mpr h3
  have henh := enh_pk_not_in_write table cols initState c.name
    (by simp [initState]) (by simp [initState]) hnameKey
  refine ⟨henh.1, henh.2, ?_, ?_, ?_⟩
  · exact basic_pk_not_in_required cols initState c.name (by simp [initState]) hnameKey
  · intro hauto
    refine basic_auto_pk_not_in_write cols initState c.name (by simp [initState]) ?_
    intro d hd hdn
    have hdc : d = c := List.inj_on_of_nodup_map h1 hd h2 hdn
    subst hdc
    exact ⟨beq_iff_eq.mpr h3, hauto⟩
  · intro hauto
    obtain ⟨pre, post, hsplit⟩ := List.append_of_mem h2
    subst hsplit
    have hmid : (c.name :: (pre.map Column.name ++ post.map Column.name)).Nodup :=
      List.nodup_middle.mp (by simpa using h1)
    have hcnot : c.name ∉ pre.map Column.name ++ post.map Column.name :=
      (List.nodup_cons.mp hmid).1
    have hpre : ∀ d ∈ pre, (d.key == "PRI") = false := by
      intro d hd
      rw [beq_eq_false_iff_ne]
      intro hdk
      have hdc : d = c := h4 d (List.mem_append_left _ hd) hdk
      subst hdc
      exact hcnot (List.mem_append_left _ (List.mem_map_of_mem Column.name hd))
    unfold MysqlToOpenapi.buildSchemas
    rw [List.foldl_append, List.foldl_cons]
    have hAI : (List.foldl MysqlToOpenapi.processColumn initState pre).hasAI = false :=
      basic_hasAI_stable pre initState hpre
    have hkey : (c.key == "PRI") = true := beq_iff_eq.mpr h3
    exact basic_nProps_mono post _ c.name (basic_step_nProps_mem _ c hkey hauto hAI)

/-- Witness for the amended C1 on a users-like table with an auto-increment
integer primary key. -/
theorem c1_amended_witness :
    "id" ∉ (MysqlToIndividualOpenapi.buildSchemas "users"
        [⟨"id", "int(11)", "NO", "PRI", "auto_increment"⟩,
         ⟨"email", "varchar(255)", "NO", "", ""⟩]).nProps.map Prod.fst ∧
    "id" ∉ (MysqlToIndividualOpenapi.buildSchemas "users"
        [⟨"id", "int(11)", "NO", "PRI", "auto_increment"⟩,
         ⟨"email", "varchar(255)", "NO", "", ""⟩]).nReq ∧
    "id" ∉ (MysqlToOpenapi.buildSchemas
        [⟨"id", "int(11)", "NO", "PRI", "auto_increment"⟩,
         ⟨"email", "varchar(255)", "NO", "", ""⟩]).nReq ∧
    "id" ∉ (MysqlToOpenapi.buildSchemas
        [⟨"id", "int(11)", "NO", "PRI", "auto_increment"⟩,
         ⟨"email", "varchar(255)", "NO", "", ""⟩]).nProps.map Prod.fst := by
  have h := c1_amended "users"
    [⟨"id", "int(11)", "NO", "PRI", "auto_increment"⟩, ⟨"email", "varchar(255)", "NO", "", ""⟩]
    ⟨"id", "int(11)", "NO", "PRI", "auto_increment"⟩
    (by decide) (by decide) rfl (by decide)
  exact ⟨h.1, h.2.1, h.2.2.1, h.2.2.2.1 (by decide)⟩

/-- `collectRefsD` over an assoc list is the flattened entry-wise collection. -/
theorem collectRefsD_ofList (l : List (String × PVal)) :
    collectRefsD (PDict.ofList l) = (l.map entryRefs).flatten := by
  induction l with
  | nil => rfl
  | cons kv rest ih =>
      obtain ⟨k, v⟩ := kv
      simp only [PDict.ofList, collectRefsD, entryRefs, List.map_cons, List.flatten_cons, ih,
        List.append_assoc]

/-- `collectRefsL` over a list is the flattened element-wise collection. -/
theorem collectRefsL_ofList (l : List PVal) :
    collectRefsL (PList.ofList l) = (l.map collectRefs).flatten := by
  induction l with
  | nil => rfl
  | cons v rest ih =>
      simp only [PList.ofList, collectRefsL, List.map_cons, List.flatten_cons, ih]

/-- A non-string dict value contributes exactly its own references. -/
theorem entryRefs_of_not_str (n : String) (v : PVal) (hv : v.isStrB = false) :
    entryRefs (n, v) = collectRefs v := by
  unfold entryRefs
  cases v <;> simp_all [PVal.isStrB]

/-- Field objects contain no `$ref` key. -/
theorem fieldToPVal_refs (f : FieldObj) : collectRefs (fieldToPVal f) = [] := by
  show collectRefsD (PDict.ofList (fieldEntries f)) = []
  rw [collectRefsD_ofList, List.flatten_eq_nil_iff]
  intro l hl
  rw [List.mem_map] at hl
  obtain ⟨e, he, rfl⟩ := hl
  unfold fieldEntries at he
  rcases List.mem_append.mp he with he | he
  rotate_left
  · cases hc : f.maxLength <;> simp [optEntryN, hc] at he
    subst he; rfl
  rcases List.mem_append.mp he with he | he
  rotate_left
  · cases hc : f.minLength <;> simp [optEntryN, hc] at he
    subst he; rfl
  rcases List.mem_append.mp he with he | he
  rotate_left
  · cases hc : f.maximum <;> simp [optEntryI, hc] at he
    subst he; rfl
  rcases List.mem_append.mp he with he | he
  rotate_left
  · cases hc : f.minimum <;> simp [optEntryI, hc] at he
    subst he; rfl
  rcases List.mem_append.mp he with he | he
  rotate_left
  · cases hc : f.pattern <;> simp [optEntryS, hc] at he
    subst he; rfl
  rcases List.mem_append.mp he with he | he
  rotate_left
  · cases hc : f.exmpl <;> simp [optEntryS, hc] at he
    subst he; rfl
  rcases List.mem_append.mp he with he | he
  rotate_left
  · cases hc : f.description <;> simp [optEntryS, hc] at he
    subst he; rfl
  rcases List.mem_append.mp he with he | he
  rotate_left
  · cases hc : f.readOnly <;> simp [hc] at he
    subst he; rfl
  rcases List.mem_append.mp he with he | he
  · simp at he
    subst he; rfl
  · cases hc : f.format <;> simp [optEntryS, hc] at he
    subst he; rfl

/-- Object schemas built from field objects contain no `$ref`. -/
theorem objSchema_refs (props : List (String × FieldObj)) (required : List String) :
    collectRefs (objSchemaToPVal props required) = [] := by
  have hprops : collectRefsD (PDict.ofList (props.map (fun p => (p.1, fieldToPVal p.2)))) = [] := by
    rw [collectRefsD_ofList, List.flatten_eq_nil_iff]
    intro l hl
    rw [List.mem_map] at hl
    obtain ⟨e, he, rfl⟩ := hl
    rw [List.mem_map] at he
    obtain ⟨p, _, rfl⟩ := he
    rw [entryRefs_of_not_str p.1 (fieldToPVal p.2) rfl, fieldToPVal_refs]
  show collectRefsD (PDict.ofList (props.map (fun p => (p.1, fieldToPVal p.2)))) ++ ([] : List String) = []
  rw [hprops]
  rfl

/-- A dict-valued entry contributes exactly the value's own references. -/
theorem entryRefs_pd (n : String) (l : List (String × PVal)) :
    entryRefs (n, pd l) = collectRefs (pd l) := by
  unfold entryRefs pd
  dsimp only
  rw [ite_self]
  rfl

theorem allNoRefs_nil : allNoRefs [] := by
  intro p hp
  simp at hp

theorem allNoRefs_cons {p : MysqlToIndividualOpenapi.QP} {l : List MysqlToIndividualOpenapi.QP}
    (h : collectRefs p.schema = []) (ht : allNoRefs l) : allNoRefs (p :: l) := by
  intro q hq
  rcases List.mem_cons.mp hq with rfl | hq
  · exact h
  · exact ht q hq

theorem allNoRefs_append {l1 l2 : List MysqlToIndividualOpenapi.QP}
    (h1 : allNoRefs l1) (h2 : allNoRefs l2) : allNoRefs (l1 ++ l2) := by
  intro p hp
  rcases List.mem_append.mp hp with hp | hp
  · exact h1 p hp
  · exact h2 p hp

theorem allNoRefs_ite {b : Bool} {l1 l2 : List MysqlToIndividualOpenapi.QP}
    (h1 : allNoRefs l1) (h2 : allNoRefs l2) : allNoRefs (if b then l1 else l2) := by
  cases b
  · simpa using h2
  · simpa using h1

open MysqlToIndividualOpenapi in
/-- The four trailing pagination/sort parameters have reference-free schemas. -/
theorem allNoRefs_standard (columns : List Column) :
    allNoRefs [pageParam, limitParam, sortByParam columns, sortOrderParam] := by
  intro p hp
  simp only [List.mem_cons, List.not_mem_nil, or_false] at hp
  rcases hp with rfl | rfl | rfl | rfl <;> rfl

open MysqlToIndividualOpenapi in
/-- The generic text-search parameter has a reference-free schema. -/
theorem allNoRefs_search (text_columns : List String) :
    allNoRefs [searchParam text_columns] := by
  intro p hp
  simp only [List.mem_singleton] at hp
  subst hp
  rfl

open MysqlToIndividualOpenapi in
/-- Every parameter the advisor emits has a reference-free schema. -/
theorem add_smart_allNoRefs (columns : List Column) (table_name : String) :
    allNoRefs (add_smart_query_params columns table_name) := by
  unfold add_smart_query_params
  cases hsg : should_generate_query_params_individual table_name
  · exact allNoRefs_nil
  · have two : ∀ p1 p2 : MysqlToIndividualOpenapi.QP, collectRefs p1.schema = [] →
        collectRefs p2.schema = [] → allNoRefs [p1, p2] := fun p1 p2 h1 h2 =>
      allNoRefs_cons h1 (allNoRefs_cons h2 allNoRefs_nil)
    refine allNoRefs_append (allNoRefs_append (allNoRefs_append ?_ ?_) ?_) ?_
    · refine allNoRefs_ite
        (allNoRefs_append (two _ _ rfl rfl) (allNoRefs_ite (allNoRefs_cons rfl allNoRefs_nil) allNoRefs_nil))
        (allNoRefs_ite
          (allNoRefs_append (allNoRefs_cons rfl (two _ _ rfl rfl)) (allNoRefs_ite (two _ _ rfl rfl) allNoRefs_nil))
          (allNoRefs_ite (two _ _ rfl rfl) (allNoRefs_ite (two _ _ rfl rfl) allNoRefs_nil)))
    · exact allNoRefs_ite (two _ _ rfl rfl) allNoRefs_nil
    · exact allNoRefs_ite (allNoRefs_search _) allNoRefs_nil
    · exact allNoRefs_standard columns

/-- A query-parameter node contributes exactly its schema's references. -/
theorem qp_refs (p : MysqlToIndividualOpenapi.QP) :
    collectRefs (MysqlToIndividualOpenapi.qpToPVal p) = collectRefs p.schema ++ [] := rfl

/-- The rendered parameter array of reference-free parameters has no references. -/
theorem params_refs (qps : List MysqlToIndividualOpenapi.QP) (hq : allNoRefs qps) :
    collectRefsL (PList.ofList (qps.map MysqlToIndividualOpenapi.qpToPVal)) = [] := by
  rw [collectRefsL_ofList, List.flatten_eq_nil_iff]
  intro l hl
  rw [List.mem_map] at hl
  obtain ⟨v, hv, rfl⟩ := hl
  rw [List.mem_map] at hv
  obtain ⟨p, hp, rfl⟩ := hv
  rw [qp_refs, hq p hp]
  rfl

/-- The primary-key path-parameter schema has no references. -/
theorem pkSchema_refs (columns : List Column) (p : String) :
    collectRefs (MysqlToIndividualOpenapi.pkSchemaOf columns p) = [] := by
  unfold MysqlToIndividualOpenapi.pkSchemaOf
  dsimp only
  split <;> rfl

open MysqlToIndividualOpenapi in
/-- The collection GET operation references exactly the read schema, the
pagination schema and the validation-error response, in that order. -/
theorem getEndpoint_refs (tn sn : String) (qps : List QP) (hq : allNoRefs qps) :
    collectRefs (getEndpointPV tn sn qps)
      = ["#/components/schemas/" ++ sn, "#/components/schemas/PaginationMeta",
         "#/components/responses/ValidationError"] := by
  unfold getEndpointPV
  cases hqe : qps.isEmpty
  · show ("#/components/schemas/" ++ sn) :: "#/components/schemas/PaginationMeta"
        :: "#/components/responses/ValidationError"
        :: (collectRefsL (PList.ofList (qps.map qpToPVal)) ++ [])
      = ["#/components/schemas/" ++ sn, "#/components/schemas/PaginationMeta",
         "#/components/responses/ValidationError"]
    rw [params_refs qps hq]
    rfl
  · rfl

open MysqlToIndividualOpenapi in
/-- The collection POST operation references exactly the create schema, the
read schema, and the validation-error and conflict responses. -/
theorem postEndpoint_refs (tn sn nn rn : String) :
    collectRefs (postEndpointPV tn sn nn rn)
      = ["#/components/schemas/" ++ nn, "#/components/schemas/" ++ sn,
         "#/components/responses/ValidationError",
         "#/components/responses/Conflict"] := rfl

open MysqlToIndividualOpenapi in
/-- The item path's four operations reference exactly the read, create and
update schemas and the shared responses. -/
theorem itemOps_refs (tn sn nn un rn pk : String) (pks : PVal)
    (hpk : collectRefs pks = []) :
    collectRefs (itemOpsPV tn sn nn un rn pk pks)
      = ["#/components/schemas/" ++ sn, "#/components/responses/NotFound",
         "#/components/schemas/" ++ nn, "#/components/schemas/" ++ sn,
         "#/components/responses/NotFound", "#/components/responses/ValidationError",
         "#/components/schemas/" ++ un, "#/components/schemas/" ++ sn,
         "#/components/responses/NotFound", "#/components/responses/ValidationError",
         "#/components/responses/NotFound"] := by
  simp [itemOpsPV, pkParamPV, pd, pa, PDict.ofList, PList.ofList,
    collectRefs, collectRefsD, collectRefsL, hpk]

open MysqlToIndividualOpenapi in
/-- The components block (schemas and shared responses) contains no `$ref`. -/
theorem components_refs (sn nn un rn : String) (st : BuildState) :
    collectRefs (componentsPV sn nn un rn st) = [] := by
  have h4 : collectRefsD (PDict.ofList
      [(sn, objSchemaToPVal st.tProps st.tReq),
       (nn, objSchemaToPVal st.nProps st.nReq),
       (un, objSchemaToPVal st.nProps []),
       ("PaginationMeta", paginationMetaSchema)]) = [] := by
    rw [collectRefsD_ofList, List.flatten_eq_nil_iff]
    intro l hl
    rw [List.mem_map] at hl
    obtain ⟨e, he, rfl⟩ := hl
    simp only [List.mem_cons, List.not_mem_nil, or_false] at he
    rcases he with rfl | rfl | rfl | rfl
    · rw [entryRefs_of_not_str sn (objSchemaToPVal st.tProps st.tReq) rfl, objSchema_refs]
    · rw [entryRefs_of_not_str nn (objSchemaToPVal st.nProps st.nReq) rfl, objSchema_refs]
    · rw [entryRefs_of_not_str un (objSchemaToPVal st.nProps []) rfl, objSchema_refs]
    · rfl
  show collectRefsD (PDict.ofList
      [(sn, objSchemaToPVal st.tProps st.tReq),
       (nn, objSchemaToPVal st.nProps st.nReq),
       (un, objSchemaToPVal st.nProps []),
       ("PaginationMeta", paginationMetaSchema)]) ++ ([] : List String) = []
  rw [h4]
  rfl

open MysqlToIndividualOpenapi in
/-- Every reference in the document's path map targets an allowed key. -/
theorem paths_refs_subset (tn sn nn un rn : String) (columns : List Column)
    (qps : List QP) (pk : Option String) (hq : allNoRefs qps) :
    ∀ r ∈ collectRefsD (PDict.ofList (pathsOfSpec tn sn nn un rn columns qps pk)),
      r ∈ allowedRefs sn nn un := by
  intro r h
  rw [collectRefsD_ofList, List.mem_flatten] at h
  obtain ⟨l, hl, hr⟩ := h
  rw [List.mem_map] at hl
  obtain ⟨e, he, rfl⟩ := hl
  unfold pathsOfSpec at he
  rcases List.mem_append.mp he with he | he
  · simp only [List.mem_singleton] at he
    subst he
    rw [entryRefs_pd] at hr
    have hsplit : collectRefs (pd [("get", getEndpointPV tn sn qps),
        ("post", postEndpointPV tn sn nn rn)])
        = collectRefs (getEndpointPV tn sn qps)
          ++ (collectRefs (postEndpointPV tn sn nn rn) ++ []) := rfl
    rw [hsplit, getEndpoint_refs tn sn qps hq, postEndpoint_refs] at hr
    simp only [List.mem_append, List.mem_cons, List.not_mem_nil, or_false] at hr
    rcases hr with (rfl | rfl | rfl) | (rfl | rfl | rfl | rfl) <;> simp [allowedRefs]
  · cases pk with
    | none => simp at he
    | some p =>
      dsimp only at he
      by_cases hp0 : p = ""
      · rw [if_pos hp0] at he
        simp at he
      · rw [if_neg hp0] at he
        simp only [List.mem_singleton] at he
        subst he
        rw [entryRefs_of_not_str ("/\x7b" ++ p ++ "\x7d")
          (itemOpsPV tn sn nn un rn p (pkSchemaOf columns p)) rfl] at hr
        rw [itemOps_refs tn sn nn un rn p (pkSchemaOf columns p) (pkSchema_refs columns p)] at hr
        simp only [List.mem_cons, List.not_mem_nil, or_false] at hr
        rcases hr with rfl | rfl | rfl | rfl | rfl | rfl | rfl | rfl | rfl | rfl | rfl <;>
          simp [allowedRefs]

open MysqlToIndividualOpenapi in
/-- Every reference in an enhanced per-table document targets an allowed key. -/
theorem enh_spec_refs_subset (table_name : String) (columns : List Column) :
    ∀ r ∈ collectRefs (create_enhanced_individual_table_spec table_name columns),
      r ∈ allowedRefs (pyCapitalize table_name)
        ("Create" ++ stripTrailingS (pyCapitalize table_name))
        ("Update" ++ stripTrailingS (pyCapitalize table_name)) := by
  intro r h
  have h0 : collectRefs (create_enhanced_individual_table_spec table_name columns)
      = collectRefsD (PDict.ofList (pathsOfSpec table_name
          (pyCapitalize table_name)
          ("Create" ++ stripTrailingS (pyCapitalize table_name))
          ("Update" ++ stripTrailingS (pyCapitalize table_name))
          (resource_singular table_name) columns
          (add_smart_query_params columns table_name)
          (buildSchemas table_name columns).pk))
        ++ (collectRefs (componentsPV (pyCapitalize table_name)
            ("Create" ++ stripTrailingS (pyCapitalize table_name))
            ("Update" ++ stripTrailingS (pyCapitalize table_name))
            (resource_singular table_name)
            (buildSchemas table_name columns)) ++ []) := rfl
  rw [h0, components_refs, List.append_nil, List.append_nil] at h
  exact paths_refs_subset table_name
    (pyCapitalize table_name)
    ("Create" ++ stripTrailingS (pyCapitalize table_name))
    ("Update" ++ stripTrailingS (pyCapitalize table_name))
    (resource_singular table_name) columns
    (add_smart_query_params columns table_name)
    (buildSchemas table_name columns).pk
    (add_smart_allNoRefs columns table_name) r h

open MysqlToIndividualOpenapi in
/-- C6: referential integrity — every `$ref` string occurring anywhere in a
generated per-table resource document resolves to a key of that document's
`components.schemas` map or to one of its shared `components.responses` keys. -/
theorem c6_refs_resolve (table_name : String) (columns : List Column) (r : String)
    (h : r ∈ collectRefs (create_enhanced_individual_table_spec table_name columns)) :
    (∃ k ∈ schemaKeysOf (create_enhanced_individual_table_spec table_name columns),
        r = "#/components/schemas/" ++ k) ∨
    (∃ k ∈ responseKeysOf (create_enhanced_individual_table_spec table_name columns),
        r = "#/components/responses/" ++ k) := by
  have hsk : schemaKeysOf (create_enhanced_individual_table_spec table_name columns)
      = [pyCapitalize table_name, "Create" ++ stripTrailingS (pyCapitalize table_name),
         "Update" ++ stripTrailingS (pyCapitalize table_name), "PaginationMeta"] := rfl
  have hrk : responseKeysOf (create_enhanced_individual_table_spec table_name columns)
      = ["ValidationError", "NotFound", "Conflict"] := rfl
  have hsub := enh_spec_refs_subset table_name columns r h
  rw [hsk, hrk]
  simp only [allowedRefs, List.mem_cons, List.not_mem_nil, or_false] at hsub
  rcases hsub with rfl | rfl | rfl | rfl | rfl | rfl | rfl
  · exact Or.inl ⟨pyCapitalize table_name, by simp, rfl⟩
  · exact Or.inl ⟨"Create" ++ stripTrailingS (pyCapitalize table_name), by simp, rfl⟩
  · exact Or.inl ⟨"Update" ++ stripTrailingS (pyCapitalize table_name), by simp, rfl⟩
  · exact Or.inl ⟨"PaginationMeta", by simp, rfl⟩
  · exact Or.inr ⟨"ValidationError", by simp, rfl⟩
  · exact Or.inr ⟨"NotFound", by simp, rfl⟩
  · exact Or.inr ⟨"Conflict", by simp, rfl⟩

open MysqlToIndividualOpenapi in
/-- Witness for C6 at the users table and the read-schema reference. -/
theorem c6_refs_resolve_witness :
    (∃ k ∈ schemaKeysOf (create_enhanced_individual_table_spec "users"
        [⟨"id", "int(11)", "NO", "PRI", "auto_increment"⟩,
         ⟨"email", "varchar(255)", "NO", "", ""⟩]),
        "#/components/schemas/Users" = "#/components/schemas/" ++ k) ∨
    (∃ k ∈ responseKeysOf (create_enhanced_individual_table_spec "users"
        [⟨"id", "int(11)", "NO", "PRI", "auto_increment"⟩,
         ⟨"email", "varchar(255)", "NO", "", ""⟩]),
        "#/components/schemas/Users" = "#/components/responses/" ++ k) :=
  c6_refs_resolve "users"
    [⟨"id", "int(11)", "NO", "PRI", "auto_increment"⟩,
     ⟨"email", "varchar(255)", "NO", "", ""⟩]
    "#/components/schemas/Users" (by decide)

/-! ## Path/item-operation structure (C7) and the update schema (C10) -/
/-- Keys of a built dictionary are the first components of its entries. -/
theorem keys_ofList (l : List (String × PVal)) : (PDict.ofList l).keys = l.map Prod.fst := by
  induction l with
  | nil => rfl
  | cons kv rest ih =>
      obtain ⟨k, v⟩ := kv
      simp [PDict.ofList, PDict.keys, ih]

/-- Lookup skips an entry with a different key. -/
theorem find_ofList_cons_ne {k1 key : String} (v1 : PVal) (rest : List (String × PVal))
    (h : (k1 == key) = false) :
    (PDict.ofList ((k1, v1) :: rest)).find key = (PDict.ofList rest).find key := by
  show (if (k1 == key) = true then some v1 else (PDict.ofList rest).find key) = _
  rw [h]
  simp

/-- Lookup stops at an entry with the matching key. -/
theorem find_ofList_cons_self {key : String} (v1 : PVal) (rest : List (String × PVal)) :
    (PDict.ofList ((key, v1) :: rest)).find key = some v1 := by
  show (if (key == key) = true then some v1 else (PDict.ofList rest).find key) = _
  simp

/-- Enhanced loop: the tracked primary-key column is absent exactly when no
column has key role `PRI` (the loop keeps the last `PRI` column's name). -/
theorem enh_pk_none_iff (table : String) :
    ∀ (cols : List Column) (st : BuildState),
      ((cols.foldl (MysqlToIndividualOpenapi.processColumn table) st).pk = none)
        ↔ (st.pk = none ∧ ∀ c ∈ cols, (c.key == "PRI") = false) := by
  intro cols
  induction cols with
  | nil => intro st; simp
  | cons c rest ih =>
    intro st
    simp only [List.foldl_cons]
    rw [ih]
    unfold MysqlToIndividualOpenapi.processColumn
    dsimp only
    cases hk : (c.key == "PRI")
    · rw [beq_eq_false_iff_ne] at hk
      simp [hk, List.forall_mem_cons]
    · rw [beq_iff_eq] at hk
      simp [hk, List.forall_mem_cons]

/-- The item path template differs from the collection path. -/
theorem slash_ne_itemKey (p : String) : ("/" : String) ≠ ("/\x7b" ++ p ++ "\x7d") := by
  intro he
  have hlen := congrArg String.length he
  rw [String.length_append, String.length_append] at hlen
  have h1 : ("/" : String).length = 1 := rfl
  have h2 : ("/\x7b" : String).length = 2 := rfl
  have h3 : ("\x7d" : String).length = 1 := rfl
  rw [h1, h2, h3] at hlen
  omega

open MysqlToIndividualOpenapi in
/-- C7 counterexample: a table whose only column has key role `PRI` but an
empty name.  Some column is Primary, yet `if primary_key_column:` is falsy on
the empty string, so the generated document has only the collection path. -/
theorem c7_counterexample :
    (∃ c ∈ ([⟨"", "int(11)", "NO", "PRI", ""⟩] : List Column), c.key = "PRI") ∧
    pathKeysOf (create_enhanced_individual_table_spec "items"
      [⟨"", "int(11)", "NO", "PRI", ""⟩]) = ["/"] := by
  constructor
  · exact ⟨⟨"", "int(11)", "NO", "PRI", ""⟩, by simp, rfl⟩
  · rfl

open MysqlToIndividualOpenapi in
/-- C7 (amended): the collection path `/` with GET and POST is always
produced.  The item path appears iff the tracked primary-key column (the last
column with key role `PRI`) exists and has a non-empty name — Python
truthiness of `primary_key_column`; it is keyed by that column and carries
exactly GET, PUT, PATCH and DELETE.  The tracked primary key exists iff some
column has key role `PRI`. -/
theorem c7_amended (table_name : String) (columns : List Column) :
    verbKeysOf (create_enhanced_individual_table_spec table_name columns) "/"
        = ["get", "post"] ∧
    ((buildSchemas table_name columns).pk = none ∨
        (buildSchemas table_name columns).pk = some "" →
      pathKeysOf (create_enhanced_individual_table_spec table_name columns) = ["/"]) ∧
    (∀ p : String, (buildSchemas table_name columns).pk = some p → p ≠ "" →
      pathKeysOf (create_enhanced_individual_table_spec table_name columns)
          = ["/", "/\x7b" ++ p ++ "\x7d"] ∧
      verbKeysOf (create_enhanced_individual_table_spec table_name columns)
          ("/\x7b" ++ p ++ "\x7d") = ["get", "put", "patch", "delete"]) ∧
    ((buildSchemas table_name columns).pk ≠ none ↔ ∃ c ∈ columns, c.key = "PRI") := by
  have hp1 : pathKeysOf (create_enhanced_individual_table_spec table_name columns)
      = (pathsOfSpec table_name (pyCapitalize table_name)
          ("Create" ++ stripTrailingS (pyCapitalize table_name))
          ("Update" ++ stripTrailingS (pyCapitalize table_name))
          (resource_singular table_name) columns
          (add_smart_query_params columns table_name)
          (buildSchemas table_name columns).pk).map Prod.fst := by
    rw [show pathKeysOf (create_enhanced_individual_table_spec table_name columns)
        = (PDict.ofList (pathsOfSpec table_name (pyCapitalize table_name)
            ("Create" ++ stripTrailingS (pyCapitalize table_name))
            ("Update" ++ stripTrailingS (pyCapitalize table_name))
            (resource_singular table_name) columns
            (add_smart_query_params columns table_name)
            (buildSchemas table_name columns).pk)).keys from rfl,
      keys_ofList]
  refine ⟨rfl, ?_, ?_, ?_⟩
  · intro hd
    rcases hd with hpk | hpk <;> rw [hp1, hpk] <;> simp [pathsOfSpec]
  · intro p hpk hp0
    constructor
    · rw [hp1, hpk]
      simp [pathsOfSpec, hp0]
    · have hbeq : (("/" : String) == ("/\x7b" ++ p ++ "\x7d")) = false :=
        beq_eq_false_iff_ne.mpr (slash_ne_itemKey p)
      have hpv : (create_enhanced_individual_table_spec table_name columns).get? "paths"
          = some (PVal.dict (PDict.ofList (pathsOfSpec table_name (pyCapitalize table_name)
              ("Create" ++ stripTrailingS (pyCapitalize table_name))
              ("Update" ++ stripTrailingS (pyCapitalize table_name))
              (resource_singular table_name) columns
              (add_smart_query_params columns table_name)
              (buildSchemas table_name columns).pk))) := rfl
      rw [hpk] at hpv
      unfold verbKeysOf
      rw [hpv]
      dsimp only [PVal.get?]
      unfold pathsOfSpec
      dsimp only
      rw [if_neg hp0]
      rw [show ([("/", pd [("get", getEndpointPV table_name (pyCapitalize table_name)
            (add_smart_query_params columns table_name)),
          ("post", postEndpointPV table_name (pyCapitalize table_name)
            ("Create" ++ stripTrailingS (pyCapitalize table_name))
            (resource_singular table_name))])]
          ++ [("/\x7b" ++ p ++ "\x7d", itemOpsPV table_name (pyCapitalize table_name)
            ("Create" ++ stripTrailingS (pyCapitalize table_name))
            ("Update" ++ stripTrailingS (pyCapitalize table_name))
            (resource_singular table_name) p (pkSchemaOf columns p))])
        = (("/", pd [("get", getEndpointPV table_name (pyCapitalize table_name)
            (add_smart_query_params columns table_name)),
          ("post", postEndpointPV table_name (pyCapitalize table_name)
            ("Create" ++ stripTrailingS (pyCapitalize table_name))
            (resource_singular table_name))])
          :: [("/\x7b" ++ p ++ "\x7d", itemOpsPV table_name (pyCapitalize table_name)
            ("Create" ++ stripTrailingS (pyCapitalize table_name))
            ("Update" ++ stripTrailingS (pyCapitalize table_name))
            (resource_singular table_name) p (pkSchemaOf columns p))]) from rfl]
      rw [find_ofList_cons_ne _ _ hbeq, find_ofList_cons_self]
      rfl
  · unfold buildSchemas
    rw [Ne, enh_pk_none_iff]
    constructor
    · intro h
      have h2 : ¬∀ c ∈ columns, (c.key == "PRI") = false := fun hall => h ⟨rfl, hall⟩
      push_neg at h2
      obtain ⟨c, hc, hne⟩ := h2
      exact ⟨c, hc, by simpa [beq_eq_false_iff_ne] using hne⟩
    · rintro ⟨c, hc, hk⟩ ⟨-, hall⟩
      have hcn := hall c hc
      rw [beq_eq_false_iff_ne] at hcn
      exact hcn hk

open MysqlToIndividualOpenapi in
/-- Witness for the amended C7 on a users-like table with primary key `id`. -/
theorem c7_amended_witness :
    verbKeysOf (create_enhanced_individual_table_spec "users"
        [⟨"id", "int(11)", "NO", "PRI", "auto_increment"⟩,
         ⟨"email", "varchar(255)", "NO", "", ""⟩]) "/" = ["get", "post"] ∧
    pathKeysOf (create_enhanced_individual_table_spec "users"
        [⟨"id", "int(11)", "NO", "PRI", "auto_increment"⟩,
         ⟨"email", "varchar(255)", "NO", "", ""⟩]) = ["/", "/\x7bid\x7d"] ∧
    verbKeysOf (create_enhanced_individual_table_spec "users"
        [⟨"id", "int(11)", "NO", "PRI", "auto_increment"⟩,
         ⟨"email", "varchar(255)", "NO", "", ""⟩]) "/\x7bid\x7d"
      = ["get", "put", "patch", "delete"] ∧
    (buildSchemas "users"
        [⟨"id", "int(11)", "NO", "PRI", "auto_increment"⟩,
         ⟨"email", "varchar(255)", "NO", "", ""⟩]).pk ≠ none := by
  have h := c7_amended "users"
    [⟨"id", "int(11)", "NO", "PRI", "auto_increment"⟩, ⟨"email", "varchar(255)", "NO", "", ""⟩]
  exact ⟨h.1, (h.2.2.1 "id" (by decide) (by decide)).1, (h.2.2.1 "id" (by decide) (by decide)).2,
    h.2.2.2.mpr ⟨⟨"id", "int(11)", "NO", "PRI", "auto_increment"⟩, by simp, rfl⟩⟩

/-- Stripping a trailing "s" keeps the length or shrinks it by one. -/
theorem stripTrailingS_length (s : String) :
    (stripTrailingS s).length = s.length ∨ (stripTrailingS s).length + 1 = s.length := by
  unfold stripTrailingS
  split
  · right
    rename_i h
    obtain ⟨u, hu⟩ := pyEndsWith_iff.mp h
    have hs : ("s" : String).data = ['s'] := rfl
    rw [hs] at hu
    show (pyDropLast s).length + 1 = s.length
    unfold pyDropLast
    have h1 : (String.mk s.data.dropLast).length = s.data.dropLast.length := rfl
    have h2 : s.length = s.data.length := rfl
    rw [h1, h2, ← hu, List.dropLast_concat]
    simp
  · left
    rfl

/-- No string equals itself with a six-character word and a possible trailing
"s" removed glued in front. -/
theorem strip_prepend_ne (s w : String) (hw : w.length = 6) :
    s ≠ w ++ stripTrailingS s := by
  intro he
  have hlen := congrArg String.length he
  rw [String.length_append, hw] at hlen
  rcases stripTrailingS_length s with h | h <;> omega

/-- `Create...` and `Update...` schema names never coincide. -/
theorem createName_ne_update (x y : String) : ("Create" ++ x) ≠ ("Update" ++ y) := by
  intro he
  have hd := congrArg String.data he
  rw [String.data_append, String.data_append] at hd
  have h1 : ("Create" : String).data = ['C', 'r', 'e', 'a', 't', 'e'] := rfl
  have h2 : ("Update" : String).data = ['U', 'p', 'd', 'a', 't', 'e'] := rfl
  rw [h1, h2] at hd
  simp at hd

open MysqlToIndividualOpenapi in
/-- C10: in the enhanced per-table document, the Update schema stored under
`Update<Singular>` carries exactly the Create schema's property map with an
always-empty required list, and — whenever the item path exists — the PATCH
operation's request body references exactly that Update schema, so every
field is optional on partial update. -/
theorem c10_update_schema (table_name : String) (columns : List Column) :
    schemaOf (create_enhanced_individual_table_spec table_name columns)
        ("Update" ++ stripTrailingS (pyCapitalize table_name))
      = some (objSchemaToPVal (buildSchemas table_name columns).nProps []) ∧
    schemaOf (create_enhanced_individual_table_spec table_name columns)
        ("Create" ++ stripTrailingS (pyCapitalize table_name))
      = some (objSchemaToPVal (buildSchemas table_name columns).nProps
          (buildSchemas table_name columns).nReq) ∧
    (objSchemaToPVal (buildSchemas table_name columns).nProps []).get? "properties"
      = (objSchemaToPVal (buildSchemas table_name columns).nProps
          (buildSchemas table_name columns).nReq).get? "properties" ∧
    (objSchemaToPVal (buildSchemas table_name columns).nProps []).get? "required"
      = some (PVal.listS []) ∧
    (∀ p : String, (buildSchemas table_name columns).pk = some p → p ≠ "" →
      patchBodyRef (create_enhanced_individual_table_spec table_name columns)
          ("/\x7b" ++ p ++ "\x7d")
        = some (pd [("$ref", PVal.str ("#/components/schemas/"
            ++ ("Update" ++ stripTrailingS (pyCapitalize table_name))))])) := by
  have hb1 : (pyCapitalize table_name
      == "Update" ++ stripTrailingS (pyCapitalize table_name)) = false :=
    beq_eq_false_iff_ne.mpr (strip_prepend_ne (pyCapitalize table_name) "Update" rfl)
  have hb2 : ("Create" ++ stripTrailingS (pyCapitalize table_name)
      == "Update" ++ stripTrailingS (pyCapitalize table_name)) = false :=
    beq_eq_false_iff_ne.mpr (createName_ne_update _ _)
  have hb3 : (pyCapitalize table_name
      == "Create" ++ stripTrailingS (pyCapitalize table_name)) = false :=
    beq_eq_false_iff_ne.mpr (strip_prepend_ne (pyCapitalize table_name) "Create" rfl)
  refine ⟨?_, ?_, rfl, rfl, ?_⟩
  · rw [show schemaOf (create_enhanced_individual_table_spec table_name columns)
        ("Update" ++ stripTrailingS (pyCapitalize table_name))
        = (PDict.ofList
            [(pyCapitalize table_name,
              objSchemaToPVal (buildSchemas table_name columns).tProps
                (buildSchemas table_name columns).tReq),
             ("Create" ++ stripTrailingS (pyCapitalize table_name),
              objSchemaToPVal (buildSchemas table_name columns).nProps
                (buildSchemas table_name columns).nReq),
             ("Update" ++ stripTrailingS (pyCapitalize table_name),
              objSchemaToPVal (buildSchemas table_name columns).nProps []),
             ("PaginationMeta", paginationMetaSchema)]).find
          ("Update" ++ stripTrailingS (pyCapitalize table_name)) from rfl]
    rw [find_ofList_cons_ne _ _ hb1, find_ofList_cons_ne _ _ hb2, find_ofList_cons_self]
  · rw [show schemaOf (create_enhanced_individual_table_spec table_name columns)
        ("Create" ++ stripTrailingS (pyCapitalize table_name))
        = (PDict.ofList
            [(pyCapitalize table_name,
              objSchemaToPVal (buildSchemas table_name columns).tProps
                (buildSchemas table_name columns).tReq),
             ("Create" ++ stripTrailingS (pyCapitalize table_name),
              objSchemaToPVal (buildSchemas table_name columns).nProps
                (buildSchemas table_name columns).nReq),
             ("Update" ++ stripTrailingS (pyCapitalize table_name),
              objSchemaToPVal (buildSchemas table_name columns).nProps []),
             ("PaginationMeta", paginationMetaSchema)]).find
          ("Create" ++ stripTrailingS (pyCapitalize table_name)) from rfl]
    rw [find_ofList_cons_ne _ _ hb3, find_ofList_cons_self]
  · intro p hpk hp0
    have hbeq : (("/" : String) == ("/\x7b" ++ p ++ "\x7d")) = false :=
      beq_eq_false_iff_ne.mpr (slash_ne_itemKey p)
    have hpv : (create_enhanced_individual_table_spec table_name columns).get? "paths"
        = some (PVal.dict (PDict.ofList (pathsOfSpec table_name (pyCapitalize table_name)
            ("Create" ++ stripTrailingS (pyCapitalize table_name))
            ("Update" ++ stripTrailingS (pyCapitalize table_name))
            (resource_singular table_name) columns
            (add_smart_query_params columns table_name)
            (buildSchemas table_name columns).pk))) := rfl
    rw [hpk] at hpv
    unfold patchBodyRef
    rw [hpv]
    dsimp only [PVal.get?]
    unfold pathsOfSpec
    dsimp only
    rw [if_neg hp0]
    rw [show ([("/", pd [("get", getEndpointPV table_name (pyCapitalize table_name)
          (add_smart_query_params columns table_name)),
        ("post", postEndpointPV table_name (pyCapitalize table_name)
          ("Create" ++ stripTrailingS (pyCapitalize table_name))
          (resource_singular table_name))])]
        ++ [("/\x7b" ++ p ++ "\x7d", itemOpsPV table_name (pyCapitalize table_name)
          ("Create" ++ stripTrailingS (pyCapitalize table_name))
          ("Update" ++ stripTrailingS (pyCapitalize table_name))
          (resource_singular table_name) p (pkSchemaOf columns p))])
      = (("/", pd [("get", getEndpointPV table_name (pyCapitalize table_name)
          (add_smart_query_params columns table_name)),
        ("post", postEndpointPV table_name (pyCapitalize table_name)
          ("Create" ++ stripTrailingS (pyCapitalize table_name))
          (resource_singular table_name))])
        :: [("/\x7b" ++ p ++ "\x7d", itemOpsPV table_name (pyCapitalize table_name)
          ("Create" ++ stripTrailingS (pyCapitalize table_name))
          ("Update" ++ stripTrailingS (pyCapitalize table_name))
          (resource_singular table_name) p (pkSchemaOf columns p))]) from rfl]
    rw [find_ofList_cons_ne _ _ hbeq, find_ofList_cons_self]
    rfl

open MysqlToIndividualOpenapi in
/-- Witness for C10 on a users-like table. -/
theorem c10_update_schema_witness :
    schemaOf (create_enhanced_individual_table_spec "users"
        [⟨"id", "int(11)", "NO", "PRI", "auto_increment"⟩,
         ⟨"email", "varchar(255)", "NO", "", ""⟩]) "UpdateUser"
      = some (objSchemaToPVal (buildSchemas "users"
          [⟨"id", "int(11)", "NO", "PRI", "auto_increment"⟩,
           ⟨"email", "varchar(255)", "NO", "", ""⟩]).nProps []) ∧
    patchBodyRef (create_enhanced_individual_table_spec "users"
        [⟨"id", "int(11)", "NO", "PRI", "auto_increment"⟩,
         ⟨"email", "varchar(255)", "NO", "", ""⟩]) "/\x7bid\x7d"
      = some (pd [("$ref", PVal.str "#/components/schemas/UpdateUser")]) := by
  have h := c10_update_schema "users"
    [⟨"id", "int(11)", "NO", "PRI", "auto_increment"⟩, ⟨"email", "varchar(255)", "NO", "", ""⟩]
  exact ⟨h.1, h.2.2.2.2 "id" (by decide) (by decide)⟩

open MysqlToIndividualOpenapi in
/-- The export loop keeps exactly the successful tables. -/
theorem runExport_eq_filterMap (tables : List (String × List (List (Option String)))) :
    runExport tables
      = tables.filterMap (fun t => (tryProcessTable t).map (fun doc => (t.1, doc))) := by
  suffices h : ∀ (l : List (String × List (List (Option String))))
      (acc : List (String × PVal)),
      l.foldl (fun acc t =>
        match tryProcessTable t with
        | some doc => acc ++ [(t.1, doc)]
        | none => acc) acc
      = acc ++ l.filterMap (fun t => (tryProcessTable t).map (fun doc => (t.1, doc))) by
    simpa [runExport] using h tables []
  intro l
  induction l with
  | nil => intro acc; simp
  | cons t rest ih =>
    intro acc
    simp only [List.foldl_cons]
    cases ht : tryProcessTable t <;> simp [ht, ih]

open MysqlToIndividualOpenapi in
/-- C8: failure isolation.  If assembling one table's document fails with any
error, the failure is confined to that table: the run over any table sequence
containing it produces exactly the documents of the run without it.  And the
run produces nothing (the basic variant's run-level failure, which returns
before writing any file) exactly when every table is skipped or fails. -/
theorem c8_failure_isolation :
    (∀ (pre post : List (String × List (List (Option String))))
        (bad : String × List (List (Option String))) (e : String),
      processTable bad = .error e →
      runExport (pre ++ bad :: post) = runExport (pre ++ post)) ∧
    (∀ tables : List (String × List (List (Option String))),
      runExport tables = [] ↔ ∀ t ∈ tables, tryProcessTable t = none) := by
  constructor
  · intro pre post bad e he
    have hbad : tryProcessTable bad = none := by
      unfold tryProcessTable
      split
      · rfl
      · rw [he]
    rw [runExport_eq_filterMap, runExport_eq_filterMap, List.filterMap_append,
      List.filterMap_append]
    simp [hbad]
  · intro tables
    rw [runExport_eq_filterMap, List.filterMap_eq_nil_iff]
    constructor
    · intro h t ht
      have := h t ht
      simpa using this
    · intro h t ht
      simp [h t ht]

open MysqlToIndividualOpenapi in
/-- Witness for C8: a malformed table (a single three-entry tuple raises
IndexError) between two well-formed tables changes nothing else.  Also
exercises the name-dependent failure sites: a None-named `PRI` column on the
searchable table `users` fails (AttributeError at line 91), while the same
row on the non-searchable table `xyz` still yields a document (line 84
returns before any name is lowered, and the file is written before the
later, post-write NameError of the summary code at line 820). -/
theorem c8_failure_isolation_witness :
    processTable ("broken", [[some "id"]]) = .error "IndexError" ∧
    processTable ("users", [[none, some "int(11)", some "NO", some "PRI", none,
      some "auto_increment"]]) = .error "AttributeError" ∧
    (tryProcessTable ("xyz", [[none, some "int(11)", some "NO", some "PRI", none,
      some "auto_increment"]])).isSome = true ∧
    runExport
      [("users", [[some "id", some "int(11)", some "NO", some "PRI", none,
        some "auto_increment"]]),
       ("broken", [[some "id"]]),
       ("tasks", [[some "task_id", some "bigint(20)", some "NO", some "PRI", none,
        some "auto_increment"]])]
      = runExport
      [("users", [[some "id", some "int(11)", some "NO", some "PRI", none,
        some "auto_increment"]]),
       ("tasks", [[some "task_id", some "bigint(20)", some "NO", some "PRI", none,
        some "auto_increment"]])] := by
  refine ⟨rfl, rfl, rfl, ?_⟩
  exact c8_failure_isolation.1
    [("users", [[some "id", some "int(11)", some "NO", some "PRI", none,
      some "auto_increment"]])]
    [("tasks", [[some "task_id", some "bigint(20)", some "NO", some "PRI", none,
      some "auto_increment"]])]
    ("broken", [[some "id"]]) "IndexError" rfl
